import Mathlib

/-!
# Verification of the HashDB benchmark adapter (my-YCSB-cpp)

Shallow embedding of `src/hashdb/hashdb_db.cc`, `src/hashdb/flags.h` and the
unnamed variant `src/unnamed/part_003` (an earlier/later revision of the same
adapter translation unit), together with proofs of the specification claims.

Modelling conventions:
* C++ byte strings (`std::string` used as raw data) are `List Nat`, one entry
  per byte; the colon character is the byte 58.
* `uint32_t` values written through `reinterpret_cast<char*>` are modelled as
  their four little-endian bytes (the x86-64 in-memory layout the code relies
  on), with truncation `% 2^32` made explicit.
* The storage engine (`hashdb::HashDB`, whose implementation lives outside
  this repository) is modelled, as the spec's map semantics dictates, as a
  partial map from keys to byte strings: `Set` stores, `Delete` removes, and
  `Get` returns -1 (here `none`) exactly when the key is unmapped.
* Engine calls issued by an adapter operation are recorded in an explicit
  call trace (`ECall`).
* `assert(...)` statements are modelled as no-ops (the build uses
  `MAYBE_UNUSED`, i.e. the asserts are expected to be compiled out); reads of
  memory outside the stored byte string (undefined behaviour in the C++
  deserializers) are modelled as `Option.none`.
-/

namespace Hashdb

/-- A benchmark field: the C++ `Field {std::string name; std::string value;}`.
Both components are raw byte strings. -/
structure Field where
  name : List Nat
  value : List Nat
  deriving Repr, DecidableEq

/-- Operation status codes of the `DB::Status` enum (the subset the adapter
returns). -/
inductive Status where
  | kOK
  | kNotFound
  | kNotImplemented
  deriving Repr, DecidableEq

/-- The engine state: a partial map from keys (byte strings) to values (byte
strings). `none` models hashdb's `Get` returning -1. -/
def Engine : Type := List Nat → Option (List Nat)

/-- `db_->Get(key, &data)`: look the key up. -/
def engineGet (db : Engine) (k : List Nat) : Option (List Nat) := db k

/-- `db_->Set(key, data)`: map the key to the byte string, replacing any
previous binding. -/
def engineSet (db : Engine) (k v : List Nat) : Engine :=
  fun k' => if k' = k then some v else db k'

/-- `db_->Delete(key)`: remove the key's binding. -/
def engineDelete (db : Engine) (k : List Nat) : Engine :=
  fun k' => if k' = k then none else db k'

/-- One engine call issued by the adapter, for call-trace bookkeeping. -/
inductive ECall where
  | get (k : List Nat)
  | set (k v : List Nat)
  | del (k : List Nat)
  deriving Repr, DecidableEq

/-- The four little-endian bytes of a `uint32_t` holding `n % 2^32`
(`data->append(reinterpret_cast<char*>(&len), sizeof(uint32_t))`). -/
def enc32 (n : Nat) : List Nat :=
  [n % 256, n / 256 % 256, n / 65536 % 256, n / 16777216 % 256]

/-- One iteration of the `SerializeRow` loop: the field-name length as a
`uint32_t`, the name bytes, the value length as a `uint32_t`, the value
bytes. -/
def serializeField (f : Field) : List Nat :=
  enc32 (f.name.length % 2 ^ 32) ++ f.name ++
    enc32 (f.value.length % 2 ^ 32) ++ f.value

/-- `HashdbDB::SerializeRow`: concatenate the per-field encodings in order. -/
def SerializeRow (values : List Field) : List Nat :=
  values.flatMap serializeField

/-- Read a `uint32_t` from the first four bytes
(`*reinterpret_cast<const uint32_t*>(p)`); `none` when fewer than four bytes
remain (the C++ code would read out of bounds). -/
def readU32 : List Nat → Option (Nat × List Nat)
  | b0 :: b1 :: b2 :: b3 :: rest =>
      some (b0 + 256 * b1 + 65536 * b2 + 16777216 * b3, rest)
  | _ => none

/-- Take `n` leading bytes (`std::string(p, len)` followed by `p += len`);
`none` when fewer than `n` bytes remain (out-of-bounds read in C++). -/
def readChunk (n : Nat) (l : List Nat) : Option (List Nat × List Nat) :=
  if n ≤ l.length then some (l.take n, l.drop n) else none

/-- One iteration of the deserialization loops: length-prefixed field name,
then length-prefixed value. -/
def readField (l : List Nat) : Option (Field × List Nat) :=
  match readU32 l with
  | none => none
  | some (nlen, l1) =>
    match readChunk nlen l1 with
    | none => none
    | some (name, l2) =>
      match readU32 l2 with
      | none => none
      | some (vlen, l3) =>
        match readChunk vlen l3 with
        | none => none
        | some (value, l4) => some (⟨name, value⟩, l4)

/-- The `while (p != lim)` loop of `HashdbDB::DeserializeRow`, with fuel.
`acc` is the `values` vector being appended to; each decoded field is pushed
at the back. Fuel `data.length` always suffices because a successful
`readField` consumes at least eight bytes. -/
def deserializeRowAux : Nat → List Nat → List Field → Option (List Field)
  | _, [], acc => some acc
  | 0, _ :: _, _ => none
  | fuel + 1, b :: l, acc =>
    match readField (b :: l) with
    | none => none
    | some (f, rest) => deserializeRowAux fuel rest (acc ++ [f])

/-- `HashdbDB::DeserializeRow`: decode every length-prefixed field of `data`,
appending to the caller's `values` vector `acc`. -/
def DeserializeRow (data : List Nat) (acc : List Field) : Option (List Field) :=
  deserializeRowAux data.length data acc

/-- The `while (p != lim && filter_iter != fields.end())` loop of
`HashdbDB::DeserializeRowFilter`: decode fields in order, pushing a decoded
field and advancing the filter iterator only when the decoded name equals the
current filter entry. -/
def deserializeRowFilterAux :
    Nat → List Nat → List (List Nat) → List Field → Option (List Field)
  | _, _, [], acc => some acc
  | _, [], _ :: _, acc => some acc
  | 0, _ :: _, _ :: _, _ => none
  | fuel + 1, b :: l, fl :: fls, acc =>
    match readField (b :: l) with
    | none => none
    | some (f, rest) =>
      if f.name = fl then deserializeRowFilterAux fuel rest fls (acc ++ [f])
      else deserializeRowFilterAux fuel rest (fl :: fls) acc

/-- `HashdbDB::DeserializeRowFilter`. -/
def DeserializeRowFilter (data : List Nat) (fields : List (List Nat))
    (acc : List Field) : Option (List Field) :=
  deserializeRowFilterAux data.length data fields acc

/-- `HashdbDB::ReadSingleEntry`: `Get` the key; -1 means `kNotFound`; else
deserialize (filtered when a field list is passed) into `result`. The outer
`Option` is `none` exactly when deserialization runs out of bytes (C++
undefined behaviour). The second component is the engine-call trace. -/
def ReadSingleEntry (db : Engine) (table key : List Nat)
    (fields : Option (List (List Nat))) (result : List Field) :
    Option (Status × List Field) × List ECall :=
  match engineGet db key with
  | none => (some (.kNotFound, result), [.get key])
  | some data =>
    match fields with
    | some fs => ((DeserializeRowFilter data fs result).map (.kOK, ·), [.get key])
    | none => ((DeserializeRow data result).map (.kOK, ·), [.get key])

/-- `HashdbDB::ScanSingleEntry`: unconditional `kNotImplemented`; nothing is
read or written. -/
def ScanSingleEntry (db : Engine) (table key : List Nat) (len : Int)
    (fields : Option (List (List Nat))) (result : List (List Field)) :
    Status × List (List Field) × Engine × List ECall :=
  (.kNotImplemented, result, db, [])

/-- The inner loop of `HashdbDB::UpdateSingleEntry`: assign `new.value` to the
first current field whose name matches (then `break`); fields without a match
leave the row unchanged (the `assert(found)` is compiled out). -/
def updateOneField (cur : List Field) (nf : Field) : List Field :=
  match cur with
  | [] => []
  | c :: cs =>
    if c.name = nf.name then { c with value := nf.value } :: cs
    else c :: updateOneField cs nf

/-- The outer loop of `HashdbDB::UpdateSingleEntry` over the new fields. -/
def updateFields (cur : List Field) (values : List Field) : List Field :=
  values.foldl updateOneField cur

/-- `HashdbDB::UpdateSingleEntry`: `Get`; -1 means `kNotFound` with the store
untouched; otherwise deserialize the current row, merge the new field values
in, re-serialize, and `Set`. `none` models deserialization running out of
bytes. -/
def UpdateSingleEntry (db : Engine) (table key : List Nat)
    (values : List Field) : Option (Status × Engine) × List ECall :=
  match engineGet db key with
  | none => (some (.kNotFound, db), [.get key])
  | some data =>
    match DeserializeRow data [] with
    | none => (none, [.get key])
    | some cur =>
      let newData := SerializeRow (updateFields cur values)
      (some (.kOK, engineSet db key newData), [.get key, .set key newData])

/-- `HashdbDB::InsertSingleEntry`: serialize and `Set`. -/
def InsertSingleEntry (db : Engine) (table key : List Nat)
    (values : List Field) : (Status × Engine) × List ECall :=
  let data := SerializeRow values
  ((.kOK, engineSet db key data), [.set key data])

/-- `HashdbDB::DeleteSingleEntry`: unconditional engine `Delete`, `kOK`. -/
def DeleteSingleEntry (db : Engine) (table key : List Nat) :
    (Status × Engine) × List ECall :=
  ((.kOK, engineDelete db key), [.del key])

/-- The `format_` member (`enum HashdbFormat` of `hashdb_db.h`, shared by both
translation units). -/
inductive Format where
  | kSingleEntry
  | kRowMajor
  | kColumnMajor
  deriving Repr, DecidableEq

/-- The colon byte used in composite keys (`":"`). -/
def colon : Nat := 58

/-- `std::to_string(i)` for the non-negative loop counters: the decimal digit
bytes, most significant first. -/
def natDecimalBytes (n : Nat) : List Nat :=
  (Nat.toDigits 10 n).map Char.toNat

/-- `HashdbDB::BuildCompKey`: `key + ":" + field_name` in row-major order,
`field_name + ":" + key` in column-major order; the `default` case throws
("wrong format"), modelled as `none`. -/
def BuildCompKey (fmt : Format) (key fieldName : List Nat) :
    Option (List Nat) :=
  match fmt with
  | .kRowMajor => some (key ++ colon :: fieldName)
  | .kColumnMajor => some (fieldName ++ colon :: key)
  | .kSingleEntry => none

/-- `HashdbDB::KeyFromCompKey`: `substr(0, find(":"))`. When no colon occurs,
`find` yields `npos` and `substr(0, npos)` is the whole string, which is what
`takeWhile` gives as well (the `assert` is compiled out). -/
def KeyFromCompKey (compKey : List Nat) : List Nat :=
  compKey.takeWhile (· ≠ colon)

/-- `HashdbDB::FieldFromCompKey`: `substr(find(":") + 1)`. When no colon
occurs, `find` yields `npos` and `npos + 1` wraps to 0, so `substr(0)` returns
the whole string (the `assert` is compiled out). -/
def FieldFromCompKey (compKey : List Nat) : List Nat :=
  match compKey.dropWhile (· ≠ colon) with
  | [] => compKey
  | _ :: rest => rest

/-- The shared shape of the `ReadCompKeyRM`/`ReadCompKeyCM` loops: `Get` each
composite key in order, appending `{comp_key, value}` to `result`; the first
-1 aborts with `kNotFound` (keeping what was pushed so far). -/
def readCompKeysLoop (db : Engine) :
    List (List Nat) → List Field → List ECall →
    Status × List Field × List ECall
  | [], acc, calls => (.kOK, acc, calls)
  | ck :: cks, acc, calls =>
    match engineGet db ck with
    | none => (.kNotFound, acc, calls ++ [.get ck])
    | some v => readCompKeysLoop db cks (acc ++ [⟨ck, v⟩]) (calls ++ [.get ck])

/-- `HashdbDB::ReadCompKeyRM`: with a field filter, iterate it while
`i < fieldcount_`, using keys `key + ":" + *filter_iter`; without one, use
keys `key + ":" + field_prefix_ + std::to_string(i)` for `i < fieldcount_`. -/
def ReadCompKeyRM (db : Engine) (table key : List Nat)
    (fields : Option (List (List Nat))) (result : List Field)
    (fieldcount : Int) (fieldPref : List Nat) :
    Status × List Field × List ECall :=
  match fields with
  | some fs =>
    readCompKeysLoop db
      ((fs.take fieldcount.toNat).map (fun f => key ++ colon :: f)) result []
  | none =>
    readCompKeysLoop db
      ((List.range fieldcount.toNat).map
        (fun i => key ++ colon :: (fieldPref ++ natDecimalBytes i))) result []

/-- `HashdbDB::ScanCompKeyRM`: unconditional `kNotImplemented`. -/
def ScanCompKeyRM (db : Engine) (table key : List Nat) (len : Int)
    (fields : Option (List (List Nat))) (result : List (List Field)) :
    Status × List (List Field) × Engine × List ECall :=
  (.kNotImplemented, result, db, [])

/-- `HashdbDB::ReadCompKeyCM`: as `ReadCompKeyRM` with composite keys
`field + ":" + key`. -/
def ReadCompKeyCM (db : Engine) (table key : List Nat)
    (fields : Option (List (List Nat))) (result : List Field)
    (fieldcount : Int) (fieldPref : List Nat) :
    Status × List Field × List ECall :=
  match fields with
  | some fs =>
    readCompKeysLoop db
      ((fs.take fieldcount.toNat).map (fun f => f ++ colon :: key)) result []
  | none =>
    readCompKeysLoop db
      ((List.range fieldcount.toNat).map
        (fun i => (fieldPref ++ natDecimalBytes i) ++ colon :: key)) result []

/-- `HashdbDB::ScanCompKeyCM`: unconditional `kNotImplemented`. -/
def ScanCompKeyCM (db : Engine) (table key : List Nat) (len : Int)
    (fields : Option (List (List Nat))) (result : List (List Field)) :
    Status × List (List Field) × Engine × List ECall :=
  (.kNotImplemented, result, db, [])

/-- The loop of `HashdbDB::InsertCompKey`: build each composite key and `Set`
its field value; a `BuildCompKey` throw (single-entry format) propagates. -/
def insertCompKeyLoop (fmt : Format) (key : List Nat) :
    List Field → Engine → List ECall → Option (Engine × List ECall)
  | [], db, calls => some (db, calls)
  | f :: fs, db, calls =>
    match BuildCompKey fmt key f.name with
    | none => none
    | some ck =>
      insertCompKeyLoop fmt key fs (engineSet db ck f.value)
        (calls ++ [.set ck f.value])

/-- `HashdbDB::InsertCompKey` (also installed as the update method in row and
column formats). -/
def InsertCompKey (db : Engine) (fmt : Format) (table key : List Nat)
    (values : List Field) : Option ((Status × Engine) × List ECall) :=
  (insertCompKeyLoop fmt key values db []).map
    (fun r => ((.kOK, r.1), r.2))

/-- The loop of `HashdbDB::DeleteCompKey` over the field indices. -/
def deleteCompKeyLoop (fmt : Format) (key fieldPref : List Nat) :
    List Nat → Engine → List ECall → Option (Engine × List ECall)
  | [], db, calls => some (db, calls)
  | i :: is, db, calls =>
    match BuildCompKey fmt key (fieldPref ++ natDecimalBytes i) with
    | none => none
    | some ck =>
      deleteCompKeyLoop fmt key fieldPref is (engineDelete db ck)
        (calls ++ [.del ck])

/-- `HashdbDB::DeleteCompKey`: delete the composite key of every field index
below `fieldcount_`. -/
def DeleteCompKey (db : Engine) (fmt : Format) (table key : List Nat)
    (fieldcount : Int) (fieldPref : List Nat) :
    Option ((Status × Engine) × List ECall) :=
  (deleteCompKeyLoop fmt key fieldPref (List.range fieldcount.toNat) db []).map
    (fun r => ((.kOK, r.1), r.2))

/-! ## Properties and C++ standard-library parsing models -/

/-- `utils::Properties`: a finite name → value association (the class itself
lives in the out-of-scope benchmark core; only lookup-with-default is used
here). -/
def Props : Type := List (String × String)

/-- `props.GetProperty(name, default)`. -/
def getProperty (props : Props) (name dflt : String) : String :=
  match props.lookup name with
  | some v => v
  | none => dflt

/-- `isspace` in the C locale, as used by `std::stoi`/`std::stoull`. -/
def isSpaceChar (c : Char) : Bool :=
  c = ' ' ∨ c = '\t' ∨ c = '\n' ∨ c = Char.ofNat 11 ∨ c = Char.ofNat 12 ∨
    c = '\r'

/-- Accumulate a decimal digit run. -/
def digitsVal (cs : List Char) : Nat :=
  cs.foldl (fun a c => a * 10 + (c.toNat - 48)) 0

/-- Shared front end of `std::stoi`/`std::stoull`: skip spaces, note an
optional sign, and return the longest leading digit run; `none` when there is
no digit (`std::invalid_argument`). -/
def parseDecPrefix (s : String) : Option (Bool × Nat) :=
  let cs := s.data.dropWhile isSpaceChar
  let signAndRest : Bool × List Char :=
    match cs with
    | '-' :: rest => (true, rest)
    | '+' :: rest => (false, rest)
    | _ => (false, cs)
  let digs := signAndRest.2.takeWhile Char.isDigit
  if digs.isEmpty then none else some (signAndRest.1, digitsVal digs)

/-- `std::stoi` (base 10): `none` models both `std::invalid_argument` (no
digits) and `std::out_of_range` (outside `int`). -/
def stoiModel (s : String) : Option Int :=
  match parseDecPrefix s with
  | none => none
  | some (neg, v) =>
    let val : Int := if neg then -(v : Int) else (v : Int)
    if val < -(2 ^ 31) ∨ (2 ^ 31 - 1 : Int) < val then none else some val

/-- `std::stoull` (base 10): a magnitude beyond `ULLONG_MAX` throws
`std::out_of_range`; a minus sign wraps modulo 2^64 (per `strtoull`). -/
def stoullModel (s : String) : Option Nat :=
  match parseDecPrefix s with
  | none => none
  | some (neg, v) =>
    if 2 ^ 64 ≤ v then none
    else some (if neg then (2 ^ 64 - v) % 2 ^ 64 else v)

/-- Acceptance model of `std::stod`: after spaces and an optional sign the
text must start with a digit, or with a decimal point followed by a digit.
(The hex/infinity/NaN spellings accepted by `strtod` are not modelled; the
flag values parsed as doubles are abstracted to their source text throughout,
since no claim depends on floating-point values.) -/
def stodAccepts (s : String) : Bool :=
  let cs := s.data.dropWhile isSpaceChar
  let cs' : List Char :=
    match cs with
    | '+' :: rest => rest
    | '-' :: rest => rest
    | _ => cs
  match cs' with
  | c :: rest =>
    if c.isDigit then true
    else
      match c, rest with
      | '.', d :: _ => d.isDigit
      | _, _ => false
  | [] => false

/-! ## `HashdbDB::Init` / `HashdbDB::Cleanup` (src/hashdb/hashdb_db.cc) -/

/-- `"hashdb.dbname"`. -/
def PROP_NAME : String := "hashdb.dbname"

/-- Default for `hashdb.dbname`. -/
def PROP_NAME_DEFAULT : String := ""

/-- `"hashdb.format"`. -/
def PROP_FORMAT : String := "hashdb.format"

/-- Default for `hashdb.format`. -/
def PROP_FORMAT_DEFAULT : String := "single"

/-- `"hashdb.destroy"`. -/
def PROP_DESTROY : String := "hashdb.destroy"

/-- Default for `hashdb.destroy`. -/
def PROP_DESTROY_DEFAULT : String := "false"

/-- Modelled from the spec: the benchmark workload generator is an
out-of-scope external collaborator ("the benchmark workload generator and its
row/column/single-entry key encodings"), so `CoreWorkload`'s property-name
constants are not in the visible sources; this is the field-count property
name of the YCSB interface the adapter consumes. -/
def FIELD_COUNT_PROPERTY : String := "fieldcount"

/-- Modelled from the spec: default of the out-of-scope workload's
field-count property. -/
def FIELD_COUNT_DEFAULT : String := "10"

/-- Modelled from the spec: the out-of-scope workload's field-name property
name. -/
def FIELD_NAME_PREFIX : String := "fieldnameprefix"

/-- Modelled from the spec: default of the out-of-scope workload's field-name
property. -/
def FIELD_NAME_PREFIX_DEFAULT : String := "field"

/-- The format dispatch of `Init`: which `format_` the three accepted
property values select (`nullptr` method-pointer table omitted: it is
determined by `format_`). -/
def formatOf (s : String) : Option Format :=
  if s = "single" then some .kSingleEntry
  else if s = "row" then some .kRowMajor
  else if s = "column" then some .kColumnMajor
  else none

/-- The observable outcome of one `Init` call: exception (if any), the shared
`ref_cnt_` and `db_` afterwards, whether `OpenHashDB`/`DestoryHashDB` were
called, and the member fields assigned before any throw. -/
structure InitRes where
  err : Option String
  refCnt : Int
  dbOpen : Bool
  opened : Bool
  destroyed : Bool
  format : Option Format
  fieldcount : Option Int
  fieldPref : Option String
  deriving Repr, DecidableEq

/-- `HashdbDB::Init` of `src/hashdb/hashdb_db.cc`, as a function of the
properties and of the shared state (`db_` non-null?, `ref_cnt_`). Throws are
modelled in `err`; `std::stoi` of the field count can throw as well. -/
def Init (props : Props) (dbOpen : Bool) (refCnt : Int) : InitRes :=
  match formatOf (getProperty props PROP_FORMAT PROP_FORMAT_DEFAULT) with
  | none =>
    { err := some "unknown format", refCnt, dbOpen, opened := false,
      destroyed := false, format := none, fieldcount := none,
      fieldPref := none }
  | some fmt =>
    match stoiModel (getProperty props FIELD_COUNT_PROPERTY
        FIELD_COUNT_DEFAULT) with
    | none =>
      { err := some "stoi", refCnt, dbOpen, opened := false,
        destroyed := false, format := some fmt, fieldcount := none,
        fieldPref := none }
    | some fc =>
      let fp := getProperty props FIELD_NAME_PREFIX FIELD_NAME_PREFIX_DEFAULT
      let refCnt' := refCnt + 1
      if dbOpen then
        { err := none, refCnt := refCnt', dbOpen := true, opened := false,
          destroyed := false, format := some fmt, fieldcount := some fc,
          fieldPref := some fp }
      else if getProperty props PROP_NAME PROP_NAME_DEFAULT = "" then
        { err := some "HashDB db path is missing", refCnt := refCnt',
          dbOpen := false, opened := false, destroyed := false,
          format := some fmt, fieldcount := some fc, fieldPref := some fp }
      else
        { err := none, refCnt := refCnt', dbOpen := true, opened := true,
          destroyed :=
            getProperty props PROP_DESTROY PROP_DESTROY_DEFAULT = "true",
          format := some fmt, fieldcount := some fc, fieldPref := some fp }

/-- The observable outcome of one `Cleanup` call. -/
structure CleanupRes where
  refCnt : Int
  deleted : Bool
  dbOpen : Bool
  deriving Repr, DecidableEq

/-- `HashdbDB::Cleanup`: decrement `ref_cnt_`; when it reaches zero,
`delete db_` — note `db_` is *not* reset to `nullptr`. -/
def Cleanup (dbOpen : Bool) (refCnt : Int) : CleanupRes :=
  let r := refCnt - 1
  if r = 0 then { refCnt := r, deleted := true, dbOpen }
  else { refCnt := r, deleted := false, dbOpen }

/-! ## Lifecycle transition system (claim C9) -/

/-- A lifecycle operation on the shared handle. -/
inductive LOp where
  | init
  | cleanup
  deriving Repr, DecidableEq

/-- The lifecycle-relevant shared state: `db_` non-null?, `ref_cnt_`, plus
counters of `OpenHashDB` calls and `delete db_` executions. -/
structure LState where
  dbOpen : Bool
  ref : Int
  opens : Nat
  deletes : Nat
  deriving Repr, DecidableEq

/-- One lifecycle step, following the tails of `Init` (lines 81–97: increment
`ref_cnt_`, open only when `db_` is null) and `Cleanup` (lines 99–105:
decrement, delete when zero, never null `db_`). -/
def lstep (s : LState) : LOp → LState
  | .init =>
    let r := s.ref + 1
    if s.dbOpen then { s with ref := r }
    else { s with ref := r, dbOpen := true, opens := s.opens + 1 }
  | .cleanup =>
    let r := s.ref - 1
    if r = 0 then { s with ref := r, deletes := s.deletes + 1 }
    else { s with ref := r }

/-- Run a trace of lifecycle operations. -/
def lrun (s : LState) (t : List LOp) : LState := t.foldl lstep s

/-- The initial shared state (`db_ = nullptr`, `ref_cnt_ = 0`). -/
def initialLState : LState := ⟨false, 0, 0, 0⟩

/-! ## The gflags configuration state (src/hashdb/flags.h) -/

/-- The hashdb gflags of `src/hashdb/flags.h`. `uint32`/`uint64` flags are
`Nat` (assignment truncation is explicit); the two `double` flags are
abstracted to the source text of their last assignment (no claim depends on
floating-point values); the five `main_*` flags are never assigned by the
adapter. -/
structure Flags where
  hashdb_files_directory : String
  hashdb_data_files_directory : String
  hashdb_index_files_directory : String
  hashdb_slots_map_size : Nat
  hashdb_foreground_threads_num : Nat
  hashdb_background_threads_num : Nat
  blob_approximate_size : Nat
  blob_write_buffer_size : Nat
  blob_gc_min_utility_threshold : String
  gc_enable : Bool
  gc_check_every_some_writes : Nat
  gc_enable_data_files_gc : Bool
  gc_trigger_min_blob_num : Nat
  gc_enable_cache_evict : Bool
  gc_cache_max_threshold : Nat
  gc_max_evict_slot_num_per_round : Nat
  gc_enable_index_colddown : Bool
  gc_max_colddown_index_slot_num_per_round : Nat
  bloom_filters_num : Nat
  bloom_filters_false_positive_rate : String
  bloom_filters_elements_num : Nat
  main_key_range : Nat
  main_write_key_times : Nat
  main_record_size : Nat
  main_key_size : Nat
  main_threads_num : Nat
  deriving Repr, DecidableEq

end Hashdb

namespace Hashdb.P3

/-!
## The `src/unnamed/part_003` translation unit

An independent translation of the second copy of the adapter, compared
against the `Hashdb` translation of `src/hashdb/hashdb_db.cc` in claim C6.
The types `Field`, `Status`, `Engine`, `ECall`, `Format`, `Flags`,
`Props`, `InitRes` and the models of the C++ standard library
(`enc32`, `readU32`, `readChunk`, `getProperty`, `stoiModel`, `stoullModel`,
`stodAccepts`, `natDecimalBytes`) are shared: they model headers and
libraries common to both translation units, not adapter code. -/

/-- `"hashdb.hashdb_files_directory"`. -/
def PROP_hashdb_files_directory : String := "hashdb.hashdb_files_directory"

/-- `"hashdb.hashdb_data_files_directory"`. -/
def PROP_hashdb_data_files_directory : String :=
  "hashdb.hashdb_data_files_directory"

/-- `"hashdb.hashdb_index_files_directory"`. -/
def PROP_hashdb_index_files_directory : String :=
  "hashdb.hashdb_index_files_directory"

/-- `"hashdb.hashdb_slots_map_size"`. -/
def PROP_hashdb_slots_map_size : String := "hashdb.hashdb_slots_map_size"

/-- `"hashdb.hashdb_foreground_threads_num"`. -/
def PROP_hashdb_foreground_threads_num : String :=
  "hashdb.hashdb_foreground_threads_num"

/-- `"hashdb.hashdb_background_threads_num"`. -/
def PROP_hashdb_background_threads_num : String :=
  "hashdb.hashdb_background_threads_num"

/-- `"hashdb.blob_approximate_size"`. -/
def PROP_blob_approximate_size : String := "hashdb.blob_approximate_size"

/-- `"hashdb.blob_write_buffer_size"`. -/
def PROP_blob_write_buffer_size : String := "hashdb.blob_write_buffer_size"

/-- `"hashdb.blob_gc_min_utility_threshold"`. -/
def PROP_blob_gc_min_utility_threshold : String :=
  "hashdb.blob_gc_min_utility_threshold"

/-- `"hashdb.gc_enable"`. -/
def PROP_gc_enable : String := "hashdb.gc_enable"

/-- `"hashdb.gc_check_every_some_writes"`. -/
def PROP_gc_check_every_some_writes : String :=
  "hashdb.gc_check_every_some_writes"

/-- `"hashdb.gc_enable_data_files_gc"`. -/
def PROP_gc_enable_data_files_gc : String := "hashdb.gc_enable_data_files_gc"

/-- `"hashdb.gc_trigger_min_blob_num"`. -/
def PROP_gc_trigger_min_blob_num : String := "hashdb.gc_trigger_min_blob_num"

/-- `"hashdb.gc_enable_cache_evict"`. -/
def PROP_gc_enable_cache_evict : String := "hashdb.gc_enable_cache_evict"

/-- `"hashdb.gc_cache_max_threshold"`. -/
def PROP_gc_cache_max_threshold : String := "hashdb.gc_cache_max_threshold"

/-- `"hashdb.gc_max_evict_slot_num_per_round"`. -/
def PROP_gc_max_evict_slot_num_per_round : String :=
  "hashdb.gc_max_evict_slot_num_per_round"

/-- `"hashdb.gc_enable_index_colddown"`. -/
def PROP_gc_enable_index_colddown : String := "hashdb.gc_enable_index_colddown"

/-- `"hashdb.gc_max_colddown_index_slot_num_per_round"`. -/
def PROP_gc_max_colddown_index_slot_num_per_round : String :=
  "hashdb.gc_max_colddown_index_slot_num_per_round"

/-- `"hashdb.bloom_filters_num"`. -/
def PROP_bloom_filters_num : String := "hashdb.bloom_filters_num"

/-- `"hashdb.bloom_filters_false_positive_rate"`. -/
def PROP_bloom_filters_false_positive_rate : String :=
  "hashdb.bloom_filters_false_positive_rate"

/-- `"hashdb.bloom_filters_elements_num"`. -/
def PROP_bloom_filters_elements_num : String := "hashdb.bloom_filters_elements_num"

/-- One `SetGflags` block for a string flag: fetch the property with default
`""`; assign only when non-empty. -/
def setStrFlag (props : Props) (name : String) (set : Flags → String → Flags)
    (f : Flags) : Option Flags :=
  let temp := getProperty props name ""
  if temp = "" then some f else some (set f temp)

/-- One `SetGflags` block for a `uint64` flag: assign `std::stoull(temp)`
when the property is non-empty; a parse throw aborts `SetGflags`. -/
def setU64Flag (props : Props) (name : String) (set : Flags → Nat → Flags)
    (f : Flags) : Option Flags :=
  let temp := getProperty props name ""
  if temp = "" then some f else (stoullModel temp).map (set f)

/-- One `SetGflags` block for a `uint32` flag: as `setU64Flag` with the
implicit `unsigned long long → uint32` conversion (`% 2^32`) of the
assignment. -/
def setU32Flag (props : Props) (name : String) (set : Flags → Nat → Flags)
    (f : Flags) : Option Flags :=
  let temp := getProperty props name ""
  if temp = "" then some f
  else (stoullModel temp).map (fun v => set f (v % 2 ^ 32))

/-- One `SetGflags` block for a `double` flag: assign `std::stod(temp)`
(abstracted to the source text) when the property is non-empty; a parse throw
aborts. -/
def setDblFlag (props : Props) (name : String) (set : Flags → String → Flags)
    (f : Flags) : Option Flags :=
  let temp := getProperty props name ""
  if temp = "" then some f
  else if stodAccepts temp then some (set f temp) else none

/-- One `SetGflags` block for a `bool` flag: assign only when the non-empty
property text is exactly `"true"` or `"false"`; any other non-empty text
leaves the flag alone. -/
def setBoolFlag (props : Props) (name : String) (set : Flags → Bool → Flags)
    (f : Flags) : Option Flags :=
  let temp := getProperty props name ""
  if temp = "" then some f
  else if temp = "true" then some (set f true)
  else if temp = "false" then some (set f false)
  else some f

/-- The 21 assignment blocks of `HashdbDB::SetGflags`
(`src/unnamed/part_003`, lines 133–256), in source order. -/
def gflagSteps (props : Props) : List (Flags → Option Flags) :=
  [ setStrFlag props PROP_hashdb_files_directory
      (fun f v => { f with hashdb_files_directory := v }),
    setStrFlag props PROP_hashdb_data_files_directory
      (fun f v => { f with hashdb_data_files_directory := v }),
    setStrFlag props PROP_hashdb_index_files_directory
      (fun f v => { f with hashdb_index_files_directory := v }),
    setU32Flag props PROP_hashdb_slots_map_size
      (fun f v => { f with hashdb_slots_map_size := v }),
    setU32Flag props PROP_hashdb_foreground_threads_num
      (fun f v => { f with hashdb_foreground_threads_num := v }),
    setU32Flag props PROP_hashdb_background_threads_num
      (fun f v => { f with hashdb_background_threads_num := v }),
    setU64Flag props PROP_blob_approximate_size
      (fun f v => { f with blob_approximate_size := v }),
    setU32Flag props PROP_blob_write_buffer_size
      (fun f v => { f with blob_write_buffer_size := v }),
    setDblFlag props PROP_blob_gc_min_utility_threshold
      (fun f v => { f with blob_gc_min_utility_threshold := v }),
    setBoolFlag props PROP_gc_enable
      (fun f v => { f with gc_enable := v }),
    setU64Flag props PROP_gc_check_every_some_writes
      (fun f v => { f with gc_check_every_some_writes := v }),
    setBoolFlag props PROP_gc_enable_data_files_gc
      (fun f v => { f with gc_enable_data_files_gc := v }),
    setU32Flag props PROP_gc_trigger_min_blob_num
      (fun f v => { f with gc_trigger_min_blob_num := v }),
    setBoolFlag props PROP_gc_enable_cache_evict
      (fun f v => { f with gc_enable_cache_evict := v }),
    setU64Flag props PROP_gc_cache_max_threshold
      (fun f v => { f with gc_cache_max_threshold := v }),
    setU32Flag props PROP_gc_max_evict_slot_num_per_round
      (fun f v => { f with gc_max_evict_slot_num_per_round := v }),
    setBoolFlag props PROP_gc_enable_index_colddown
      (fun f v => { f with gc_enable_index_colddown := v }),
    setU32Flag props PROP_gc_max_colddown_index_slot_num_per_round
      (fun f v => { f with gc_max_colddown_index_slot_num_per_round := v }),
    setU32Flag props PROP_bloom_filters_num
      (fun f v => { f with bloom_filters_num := v }),
    setDblFlag props PROP_bloom_filters_false_positive_rate
      (fun f v => { f with bloom_filters_false_positive_rate := v }),
    setU32Flag props PROP_bloom_filters_elements_num
      (fun f v => { f with bloom_filters_elements_num := v }) ]

/-- `HashdbDB::SetGflags`: run the 21 blocks in order; `none` models an
uncaught `std::stoull`/`std::stod` throw (in which case C++ would leave the
blocks already executed in force and propagate the exception). -/
def SetGflags (props : Props) (f : Flags) : Option Flags :=
  (gflagSteps props).foldlM (fun g s => s g) f

/-- `HashdbDB::Init` of `src/unnamed/part_003`: identical to the
`src/hashdb/hashdb_db.cc` version except that `SetGflags(props)` runs after
the db-path check and before the destroy/open calls; the resulting flag state
is returned alongside. A `SetGflags` throw propagates out of `Init`. -/
def Init (props : Props) (dbOpen : Bool) (refCnt : Int) (flags : Flags) :
    InitRes × Flags :=
  match formatOf (getProperty props PROP_FORMAT PROP_FORMAT_DEFAULT) with
  | none =>
    ({ err := some "unknown format", refCnt, dbOpen, opened := false,
       destroyed := false, format := none, fieldcount := none,
       fieldPref := none }, flags)
  | some fmt =>
    match stoiModel (getProperty props FIELD_COUNT_PROPERTY
        FIELD_COUNT_DEFAULT) with
    | none =>
      ({ err := some "stoi", refCnt, dbOpen, opened := false,
         destroyed := false, format := some fmt, fieldcount := none,
         fieldPref := none }, flags)
    | some fc =>
      let fp := getProperty props FIELD_NAME_PREFIX FIELD_NAME_PREFIX_DEFAULT
      let refCnt' := refCnt + 1
      if dbOpen then
        ({ err := none, refCnt := refCnt', dbOpen := true, opened := false,
           destroyed := false, format := some fmt, fieldcount := some fc,
           fieldPref := some fp }, flags)
      else if getProperty props PROP_NAME PROP_NAME_DEFAULT = "" then
        ({ err := some "HashDB db path is missing", refCnt := refCnt',
           dbOpen := false, opened := false, destroyed := false,
           format := some fmt, fieldcount := some fc, fieldPref := some fp },
         flags)
      else
        match SetGflags props flags with
        | none =>
          ({ err := some "flag parse", refCnt := refCnt', dbOpen := false,
             opened := false, destroyed := false, format := some fmt,
             fieldcount := some fc, fieldPref := some fp }, flags)
        | some flags' =>
          ({ err := none, refCnt := refCnt', dbOpen := true, opened := true,
             destroyed :=
               getProperty props PROP_DESTROY PROP_DESTROY_DEFAULT = "true",
             format := some fmt, fieldcount := some fc,
             fieldPref := some fp }, flags')

/-- `HashdbDB::SerializeRow` body of part_003, lines 266–276. -/
def serializeField (f : Field) : List Nat :=
  enc32 (f.name.length % 2 ^ 32) ++ f.name ++
    enc32 (f.value.length % 2 ^ 32) ++ f.value

/-- `HashdbDB::SerializeRow` of part_003. -/
def SerializeRow (values : List Field) : List Nat :=
  values.flatMap serializeField

/-- One decode step of the part_003 deserializer loops. -/
def readField (l : List Nat) : Option (Field × List Nat) :=
  match readU32 l with
  | none => none
  | some (nlen, l1) =>
    match readChunk nlen l1 with
    | none => none
    | some (name, l2) =>
      match readU32 l2 with
      | none => none
      | some (vlen, l3) =>
        match readChunk vlen l3 with
        | none => none
        | some (value, l4) => some (⟨name, value⟩, l4)

/-- The `while (p != lim)` loop of part_003's `DeserializeRow`. -/
def deserializeRowAux : Nat → List Nat → List Field → Option (List Field)
  | _, [], acc => some acc
  | 0, _ :: _, _ => none
  | fuel + 1, b :: l, acc =>
    match readField (b :: l) with
    | none => none
    | some (f, rest) => deserializeRowAux fuel rest (acc ++ [f])

/-- `HashdbDB::DeserializeRow` of part_003, lines 303–320. -/
def DeserializeRow (data : List Nat) (acc : List Field) : Option (List Field) :=
  deserializeRowAux data.length data acc

/-- The loop of part_003's `DeserializeRowFilter`. -/
def deserializeRowFilterAux :
    Nat → List Nat → List (List Nat) → List Field → Option (List Field)
  | _, _, [], acc => some acc
  | _, [], _ :: _, acc => some acc
  | 0, _ :: _, _ :: _, _ => none
  | fuel + 1, b :: l, fl :: fls, acc =>
    match readField (b :: l) with
    | none => none
    | some (f, rest) =>
      if f.name = fl then deserializeRowFilterAux fuel rest fls (acc ++ [f])
      else deserializeRowFilterAux fuel rest (fl :: fls) acc

/-- `HashdbDB::DeserializeRowFilter` of part_003, lines 278–301. -/
def DeserializeRowFilter (data : List Nat) (fields : List (List Nat))
    (acc : List Field) : Option (List Field) :=
  deserializeRowFilterAux data.length data fields acc

/-- `HashdbDB::BuildCompKey` of part_003, lines 322–334. -/
def BuildCompKey (fmt : Format) (key fieldName : List Nat) :
    Option (List Nat) :=
  match fmt with
  | .kRowMajor => some (key ++ colon :: fieldName)
  | .kColumnMajor => some (fieldName ++ colon :: key)
  | .kSingleEntry => none

/-- `HashdbDB::KeyFromCompKey` of part_003, lines 336–340. -/
def KeyFromCompKey (compKey : List Nat) : List Nat :=
  compKey.takeWhile (· ≠ colon)

/-- `HashdbDB::FieldFromCompKey` of part_003, lines 342–346. -/
def FieldFromCompKey (compKey : List Nat) : List Nat :=
  match compKey.dropWhile (· ≠ colon) with
  | [] => compKey
  | _ :: rest => rest

/-- `HashdbDB::ReadSingleEntry` of part_003, lines 348–366. -/
def ReadSingleEntry (db : Engine) (table key : List Nat)
    (fields : Option (List (List Nat))) (result : List Field) :
    Option (Status × List Field) × List ECall :=
  match engineGet db key with
  | none => (some (.kNotFound, result), [.get key])
  | some data =>
    match fields with
    | some fs => ((DeserializeRowFilter data fs result).map (.kOK, ·), [.get key])
    | none => ((DeserializeRow data result).map (.kOK, ·), [.get key])

/-- `HashdbDB::ScanSingleEntry` of part_003, lines 368–373. -/
def ScanSingleEntry (db : Engine) (table key : List Nat) (len : Int)
    (fields : Option (List (List Nat))) (result : List (List Field)) :
    Status × List (List Field) × Engine × List ECall :=
  (.kNotImplemented, result, db, [])

/-- The inner loop of part_003's `UpdateSingleEntry`. -/
def updateOneField (cur : List Field) (nf : Field) : List Field :=
  match cur with
  | [] => []
  | c :: cs =>
    if c.name = nf.name then { c with value := nf.value } :: cs
    else c :: updateOneField cs nf

/-- The outer loop of part_003's `UpdateSingleEntry`. -/
def updateFields (cur : List Field) (values : List Field) : List Field :=
  values.foldl updateOneField cur

/-- `HashdbDB::UpdateSingleEntry` of part_003, lines 375–403. -/
def UpdateSingleEntry (db : Engine) (table key : List Nat)
    (values : List Field) : Option (Status × Engine) × List ECall :=
  match engineGet db key with
  | none => (some (.kNotFound, db), [.get key])
  | some data =>
    match DeserializeRow data [] with
    | none => (none, [.get key])
    | some cur =>
      let newData := SerializeRow (updateFields cur values)
      (some (.kOK, engineSet db key newData), [.get key, .set key newData])

/-- `HashdbDB::InsertSingleEntry` of part_003, lines 405–412. -/
def InsertSingleEntry (db : Engine) (table key : List Nat)
    (values : List Field) : (Status × Engine) × List ECall :=
  let data := SerializeRow values
  ((.kOK, engineSet db key data), [.set key data])

/-- `HashdbDB::DeleteSingleEntry` of part_003, lines 414–418. -/
def DeleteSingleEntry (db : Engine) (table key : List Nat) :
    (Status × Engine) × List ECall :=
  ((.kOK, engineDelete db key), [.del key])

/-- The read loop shape of part_003's `ReadCompKeyRM`/`ReadCompKeyCM`. -/
def readCompKeysLoop (db : Engine) :
    List (List Nat) → List Field → List ECall →
    Status × List Field × List ECall
  | [], acc, calls => (.kOK, acc, calls)
  | ck :: cks, acc, calls =>
    match engineGet db ck with
    | none => (.kNotFound, acc, calls ++ [.get ck])
    | some v => readCompKeysLoop db cks (acc ++ [⟨ck, v⟩]) (calls ++ [.get ck])

/-- `HashdbDB::ReadCompKeyRM` of part_003, lines 420–451. -/
def ReadCompKeyRM (db : Engine) (table key : List Nat)
    (fields : Option (List (List Nat))) (result : List Field)
    (fieldcount : Int) (fieldPref : List Nat) :
    Status × List Field × List ECall :=
  match fields with
  | some fs =>
    readCompKeysLoop db
      ((fs.take fieldcount.toNat).map (fun f => key ++ colon :: f)) result []
  | none =>
    readCompKeysLoop db
      ((List.range fieldcount.toNat).map
        (fun i => key ++ colon :: (fieldPref ++ natDecimalBytes i))) result []

/-- `HashdbDB::ScanCompKeyRM` of part_003, lines 453–458. -/
def ScanCompKeyRM (db : Engine) (table key : List Nat) (len : Int)
    (fields : Option (List (List Nat))) (result : List (List Field)) :
    Status × List (List Field) × Engine × List ECall :=
  (.kNotImplemented, result, db, [])

/-- `HashdbDB::ReadCompKeyCM` of part_003, lines 460–490. -/
def ReadCompKeyCM (db : Engine) (table key : List Nat)
    (fields : Option (List (List Nat))) (result : List Field)
    (fieldcount : Int) (fieldPref : List Nat) :
    Status × List Field × List ECall :=
  match fields with
  | some fs =>
    readCompKeysLoop db
      ((fs.take fieldcount.toNat).map (fun f => f ++ colon :: key)) result []
  | none =>
    readCompKeysLoop db
      ((List.range fieldcount.toNat).map
        (fun i => (fieldPref ++ natDecimalBytes i) ++ colon :: key)) result []

/-- `HashdbDB::ScanCompKeyCM` of part_003, lines 492–497. -/
def ScanCompKeyCM (db : Engine) (table key : List Nat) (len : Int)
    (fields : Option (List (List Nat))) (result : List (List Field)) :
    Status × List (List Field) × Engine × List ECall :=
  (.kNotImplemented, result, db, [])

/-- The loop of part_003's `InsertCompKey`. -/
def insertCompKeyLoop (fmt : Format) (key : List Nat) :
    List Field → Engine → List ECall → Option (Engine × List ECall)
  | [], db, calls => some (db, calls)
  | f :: fs, db, calls =>
    match BuildCompKey fmt key f.name with
    | none => none
    | some ck =>
      insertCompKeyLoop fmt key fs (engineSet db ck f.value)
        (calls ++ [.set ck f.value])

/-- `HashdbDB::InsertCompKey` of part_003, lines 499–508. -/
def InsertCompKey (db : Engine) (fmt : Format) (table key : List Nat)
    (values : List Field) : Option ((Status × Engine) × List ECall) :=
  (insertCompKeyLoop fmt key values db []).map
    (fun r => ((.kOK, r.1), r.2))

/-- The loop of part_003's `DeleteCompKey`. -/
def deleteCompKeyLoop (fmt : Format) (key fieldPref : List Nat) :
    List Nat → Engine → List ECall → Option (Engine × List ECall)
  | [], db, calls => some (db, calls)
  | i :: is, db, calls =>
    match BuildCompKey fmt key (fieldPref ++ natDecimalBytes i) with
    | none => none
    | some ck =>
      deleteCompKeyLoop fmt key fieldPref is (engineDelete db ck)
        (calls ++ [.del ck])

/-- `HashdbDB::DeleteCompKey` of part_003, lines 510–519. -/
def DeleteCompKey (db : Engine) (fmt : Format) (table key : List Nat)
    (fieldcount : Int) (fieldPref : List Nat) :
    Option ((Status × Engine) × List ECall) :=
  (deleteCompKeyLoop fmt key fieldPref (List.range fieldcount.toNat) db []).map
    (fun r => ((.kOK, r.1), r.2))

end Hashdb.P3

namespace Hashdb

/-! ## Auxiliary definitions for the verification -/

/-- The empty engine state: no key is mapped. -/
def emptyEngine : Engine := fun _ => none

/-- A property map exercising the field-count parse: a valid (defaulted)
format and a non-empty db path, but a field count that `std::stoi` rejects. -/
def badFieldCountProps : Props := [("fieldcount", "x"), ("hashdb.dbname", "db")]

/-- `g` preserves the projection `proj` of the flag state: whenever `g`
succeeds, the projected component is unchanged. -/
def PreservesF {α : Type} (g : Flags → Option Flags) (proj : Flags → α) :
    Prop :=
  ∀ f f', g f = some f' → proj f' = proj f

/-- A concrete flag state, for witnesses. -/
def flags0 : Flags :=
  { hashdb_files_directory := "", hashdb_data_files_directory := "",
    hashdb_index_files_directory := "", hashdb_slots_map_size := 0,
    hashdb_foreground_threads_num := 0, hashdb_background_threads_num := 0,
    blob_approximate_size := 0, blob_write_buffer_size := 0,
    blob_gc_min_utility_threshold := "", gc_enable := false,
    gc_check_every_some_writes := 0, gc_enable_data_files_gc := false,
    gc_trigger_min_blob_num := 0, gc_enable_cache_evict := false,
    gc_cache_max_threshold := 0, gc_max_evict_slot_num_per_round := 0,
    gc_enable_index_colddown := false,
    gc_max_colddown_index_slot_num_per_round := 0, bloom_filters_num := 0,
    bloom_filters_false_positive_rate := "", bloom_filters_elements_num := 0,
    main_key_range := 0, main_write_key_times := 0, main_record_size := 0,
    main_key_size := 0, main_threads_num := 0 }

/-! ## Serialization round-trip (claim C1) -/

theorem readChunk_exact (l rest : List Nat) :
    readChunk l.length (l ++ rest) = some (l, rest) := by
  simp [readChunk]

theorem readU32_enc32 (n : Nat) (h : n < 2 ^ 32) (l : List Nat) :
    readU32 (enc32 n ++ l) = some (n, l) := by
  simp only [enc32, List.cons_append, List.nil_append, readU32]
  have hn : n % 256 + 256 * (n / 256 % 256) + 65536 * (n / 65536 % 256) +
      16777216 * (n / 16777216 % 256) = n := by omega
  rw [hn]

theorem readField_serializeField (f : Field) (rest : List Nat)
    (h1 : f.name.length < 2 ^ 32) (h2 : f.value.length < 2 ^ 32) :
    readField (serializeField f ++ rest) = some (f, rest) := by
  have e1 : f.name.length % 2 ^ 32 = f.name.length := Nat.mod_eq_of_lt h1
  have e2 : f.value.length % 2 ^ 32 = f.value.length := Nat.mod_eq_of_lt h2
  unfold serializeField
  rw [e1, e2]
  have assoc : enc32 f.name.length ++ f.name ++ enc32 f.value.length ++
      f.value ++ rest =
      enc32 f.name.length ++ (f.name ++ (enc32 f.value.length ++
        (f.value ++ rest))) := by
    simp [List.append_assoc]
  rw [assoc]
  simp only [readField, readU32_enc32 _ h1, readChunk_exact,
    readU32_enc32 _ h2]

theorem deserializeRowAux_nil (fuel : Nat) (acc : List Field) :
    deserializeRowAux fuel [] acc = some acc := by
  cases fuel <;> rfl

theorem serializeField_length_ge (f : Field) :
    8 ≤ (serializeField f).length := by
  simp [serializeField, enc32]
  omega

theorem deserializeRowAux_serialize (vs : List Field) :
    ∀ fuel acc,
      (∀ f ∈ vs, f.name.length < 2 ^ 32 ∧ f.value.length < 2 ^ 32) →
      (SerializeRow vs).length ≤ fuel →
      deserializeRowAux fuel (SerializeRow vs) acc = some (acc ++ vs) := by
  induction vs with
  | nil =>
    intro fuel acc _ _
    simp only [SerializeRow, List.flatMap_nil, deserializeRowAux_nil,
      List.append_nil]
  | cons v vs ih =>
    intro fuel acc hb hf
    have hser : SerializeRow (v :: vs) = serializeField v ++ SerializeRow vs := by
      simp [SerializeRow]
    have h8 := serializeField_length_ge v
    have hlensplit : (SerializeRow (v :: vs)).length =
        (serializeField v).length + (SerializeRow vs).length := by
      rw [hser]; exact List.length_append _ _
    obtain ⟨fuel', rfl⟩ : ∃ fuel', fuel = fuel' + 1 := by
      cases fuel with
      | zero => omega
      | succ k => exact ⟨k, rfl⟩
    obtain ⟨b, l, hbl⟩ : ∃ b l, SerializeRow (v :: vs) = b :: l := by
      have hne : SerializeRow (v :: vs) ≠ [] := by
        intro h
        rw [h] at hlensplit
        simp at hlensplit
        omega
      rcases hcons : SerializeRow (v :: vs) with _ | ⟨b, l⟩
      · exact absurd hcons hne
      · exact ⟨b, l, rfl⟩
    rw [hbl]
    show (match readField (b :: l) with
      | none => none
      | some (f, rest) => deserializeRowAux fuel' rest (acc ++ [f])) =
        some (acc ++ v :: vs)
    have hrf : readField (b :: l) = some (v, SerializeRow vs) := by
      rw [← hbl, hser]
      exact readField_serializeField v _ (hb v (by simp)).1 (hb v (by simp)).2
    rw [hrf]
    show deserializeRowAux fuel' (SerializeRow vs) (acc ++ [v]) =
      some (acc ++ v :: vs)
    have hf' : (SerializeRow vs).length ≤ fuel' := by
      have hle : (SerializeRow (v :: vs)).length ≤ fuel' + 1 := hf
      omega
    rw [ih fuel' (acc ++ [v]) (fun f hfm => hb f (by simp [hfm])) hf']
    simp

theorem DeserializeRow_SerializeRow (vs : List Field) (acc : List Field)
    (hb : ∀ f ∈ vs, f.name.length < 2 ^ 32 ∧ f.value.length < 2 ^ 32) :
    DeserializeRow (SerializeRow vs) acc = some (acc ++ vs) :=
  deserializeRowAux_serialize vs _ acc hb le_rfl

/-- C1: single-entry round-trip. For every key and every field list whose
name and value lengths are representable in `uint32`, with the engine
modelled as a map (so `Get` returns exactly the bytes most recently `Set`),
`InsertSingleEntry` followed by `ReadSingleEntry` (no field filter, empty
result vector) returns `kOK` and fills the result with exactly the inserted
fields; equivalently, `DeserializeRow` inverts `SerializeRow`. -/
theorem insertSingleEntry_readSingleEntry_roundtrip
    (db : Engine) (table key : List Nat) (values : List Field)
    (hb : ∀ f ∈ values, f.name.length < 2 ^ 32 ∧ f.value.length < 2 ^ 32) :
    ReadSingleEntry (InsertSingleEntry db table key values).1.2 table key
        none [] = (some (.kOK, values), [.get key]) ∧
    DeserializeRow (SerializeRow values) [] = some values := by
  have hds : DeserializeRow (SerializeRow values) [] = some values := by
    simpa using DeserializeRow_SerializeRow values [] hb
  refine ⟨?_, hds⟩
  unfold ReadSingleEntry InsertSingleEntry
  simp [engineGet, engineSet, hds]

/-- Witness for C1 at a concrete field list. -/
theorem insertSingleEntry_readSingleEntry_roundtrip_witness :
    (∀ f ∈ [({ name := [97], value := [98, 99] } : Field)],
        f.name.length < 2 ^ 32 ∧ f.value.length < 2 ^ 32) ∧
    (ReadSingleEntry
        (InsertSingleEntry emptyEngine [] [107]
          [{ name := [97], value := [98, 99] }]).1.2 [] [107] none [] =
      (some (.kOK, [{ name := [97], value := [98, 99] }]), [.get [107]]) ∧
     DeserializeRow (SerializeRow [{ name := [97], value := [98, 99] }]) [] =
      some [{ name := [97], value := [98, 99] }]) :=
  ⟨by decide,
   insertSingleEntry_readSingleEntry_roundtrip emptyEngine [] [107] _
     (by decide)⟩

/-- C2: tombstone / NotFound propagation. Insert-delete-read yields
`kNotFound` (leaving the caller's result vector as it was), and in general a
`ReadSingleEntry` that returns does so with `kNotFound` exactly when the
engine `Get` returned -1, and with `kOK` otherwise. -/
theorem readSingleEntry_tombstone (db : Engine) (table key : List Nat)
    (values : List Field) (fields : Option (List (List Nat)))
    (r0 : List Field) :
    (ReadSingleEntry
        (DeleteSingleEntry (InsertSingleEntry db table key values).1.2
          table key).1.2 table key fields r0).1 =
      some (.kNotFound, r0) ∧
    (∀ st r, (ReadSingleEntry db table key fields r0).1 = some (st, r) →
      ((st = .kNotFound ↔ engineGet db key = none) ∧
       (st = .kOK ∨ st = .kNotFound))) := by
  constructor
  · have hget : engineGet
        (DeleteSingleEntry (InsertSingleEntry db table key values).1.2
          table key).1.2 key = none := by
      simp [DeleteSingleEntry, InsertSingleEntry, engineGet, engineDelete]
    unfold ReadSingleEntry
    rw [hget]
  · intro st r h
    unfold ReadSingleEntry at h
    rcases hg : engineGet db key with _ | data <;> rw [hg] at h
    · simp only [Option.some.injEq, Prod.mk.injEq] at h
      obtain ⟨h1, -⟩ := h
      subst h1
      exact ⟨⟨fun _ => rfl, fun _ => rfl⟩, Or.inr rfl⟩
    · rcases fields with _ | fs <;> simp at h <;> obtain ⟨-, h1⟩ := h <;>
        subst h1
      all_goals exact
        ⟨⟨fun hst => (nomatch hst), fun hn => (nomatch hn)⟩, Or.inl rfl⟩

/-- Witness for C2 at a concrete key and store. -/
theorem readSingleEntry_tombstone_witness :
    (ReadSingleEntry
        (DeleteSingleEntry (InsertSingleEntry emptyEngine [] [7]
          [{ name := [97], value := [98] }]).1.2 [] [7]).1.2 [] [7]
        none []).1 = some (.kNotFound, []) ∧
    ((Status.kNotFound = .kNotFound ↔ engineGet emptyEngine [7] = none) ∧
     (Status.kNotFound = .kOK ∨ Status.kNotFound = .kNotFound)) :=
  ⟨(readSingleEntry_tombstone emptyEngine [] [7]
      [{ name := [97], value := [98] }] none []).1,
   (readSingleEntry_tombstone emptyEngine [] [7] [] none []).2
     .kNotFound [] (by decide)⟩

/-- C3: a failed update is atomic. When the engine `Get` for the key returns
-1, `UpdateSingleEntry` returns `kNotFound`, the store is returned unchanged,
and the call trace contains no `Set`. -/
theorem updateSingleEntry_notFound (db : Engine) (table key : List Nat)
    (values : List Field) (h : engineGet db key = none) :
    UpdateSingleEntry db table key values =
      (some (.kNotFound, db), [.get key]) := by
  unfold UpdateSingleEntry
  rw [h]

/-- Witness for C3 at the empty engine. -/
theorem updateSingleEntry_notFound_witness :
    engineGet emptyEngine [5] = none ∧
    UpdateSingleEntry emptyEngine [] [5] [{ name := [97], value := [98] }] =
      (some (.kNotFound, emptyEngine), [.get [5]]) :=
  ⟨rfl, updateSingleEntry_notFound emptyEngine [] [5] _ rfl⟩

/-- C5: no scan is provided. All three scan methods return
`kNotImplemented`, leave the result vector and the store untouched, and
issue no engine call. -/
theorem scans_notImplemented (db : Engine) (table key : List Nat) (len : Int)
    (fields : Option (List (List Nat))) (result : List (List Field)) :
    ScanSingleEntry db table key len fields result =
      (.kNotImplemented, result, db, []) ∧
    ScanCompKeyRM db table key len fields result =
      (.kNotImplemented, result, db, []) ∧
    ScanCompKeyCM db table key len fields result =
      (.kNotImplemented, result, db, []) :=
  ⟨rfl, rfl, rfl⟩

/-! ## Init error conditions (claim C4) -/

/-- C4, amended: `Init` throws (and then never calls `OpenHashDB`) exactly
when the format property is invalid, or the field-count property fails
`std::stoi`, or no handle is open yet and the db path property is missing or
empty. (The claim as frozen omits the field-count disjunct; see the
counterexample.) -/
theorem init_throws_iff (props : Props) (dbOpen : Bool) (refCnt : Int) :
    ((Init props dbOpen refCnt).err ≠ none ↔
      (formatOf (getProperty props PROP_FORMAT PROP_FORMAT_DEFAULT) = none ∨
       stoiModel (getProperty props FIELD_COUNT_PROPERTY
         FIELD_COUNT_DEFAULT) = none ∨
       (dbOpen = false ∧
         getProperty props PROP_NAME PROP_NAME_DEFAULT = ""))) ∧
    ((Init props dbOpen refCnt).err ≠ none →
      (Init props dbOpen refCnt).opened = false) := by
  unfold Init
  rcases hf : formatOf (getProperty props PROP_FORMAT PROP_FORMAT_DEFAULT)
      with _ | fmt
  · simp
  · rcases hs : stoiModel (getProperty props FIELD_COUNT_PROPERTY
        FIELD_COUNT_DEFAULT) with _ | fc
    · simp
    · cases dbOpen
      · by_cases hp : getProperty props PROP_NAME PROP_NAME_DEFAULT = ""
        · simp [hp]
        · simp [hp]
      · simp

/-- Witness for C4 at a concrete property map. -/
theorem init_throws_iff_witness :
    ((Init badFieldCountProps false 0).err ≠ none ↔
      (formatOf (getProperty badFieldCountProps PROP_FORMAT
        PROP_FORMAT_DEFAULT) = none ∨
       stoiModel (getProperty badFieldCountProps FIELD_COUNT_PROPERTY
         FIELD_COUNT_DEFAULT) = none ∨
       (false = false ∧
         getProperty badFieldCountProps PROP_NAME PROP_NAME_DEFAULT = ""))) ∧
    ((Init badFieldCountProps false 0).err ≠ none →
      (Init badFieldCountProps false 0).opened = false) :=
  init_throws_iff badFieldCountProps false 0

/-- Counterexample to C4 as frozen: with the defaulted (valid) format and a
non-empty db path, but a field count `std::stoi` rejects, `Init` still
throws. -/
theorem init_throws_counterexample :
    formatOf (getProperty badFieldCountProps PROP_FORMAT
      PROP_FORMAT_DEFAULT) ≠ none ∧
    getProperty badFieldCountProps PROP_NAME PROP_NAME_DEFAULT ≠ "" ∧
    (Init badFieldCountProps false 0).err ≠ none := by decide

/-! ## Composite-key extraction (claim C8) -/

theorem takeWhile_colon (k f : List Nat) (hk : colon ∉ k) :
    (k ++ colon :: f).takeWhile (· ≠ colon) = k := by
  induction k with
  | nil => simp
  | cons a as ih =>
    simp only [List.mem_cons, not_or] at hk
    have ha : a ≠ colon := fun h => hk.1 h.symm
    rw [List.cons_append, List.takeWhile_cons_of_pos (by simpa using ha),
      ih hk.2]

theorem dropWhile_colon (k f : List Nat) (hk : colon ∉ k) :
    (k ++ colon :: f).dropWhile (· ≠ colon) = colon :: f := by
  induction k with
  | nil => simp
  | cons a as ih =>
    simp only [List.mem_cons, not_or] at hk
    have ha : a ≠ colon := fun h => hk.1 h.symm
    rw [List.cons_append, List.dropWhile_cons_of_pos (by simpa using ha),
      ih hk.2]

theorem compKey_extractors (k f : List Nat) (hk : colon ∉ k) :
    KeyFromCompKey (k ++ colon :: f) = k ∧
    FieldFromCompKey (k ++ colon :: f) = f := by
  constructor
  · exact takeWhile_colon k f hk
  · unfold FieldFromCompKey
    rw [dropWhile_colon k f hk]

/-- C8, amended: for keys without ':' the row-major composite key
round-trips through both extractors (for any field name); the column-major
composite key instead yields the field name from `KeyFromCompKey` (and the
key from `FieldFromCompKey`) — *provided the field name itself contains no
':'*, since both extractors split at the first ':' of the composite key. -/
theorem compKey_roundtrip (k f : List Nat) (hk : colon ∉ k) :
    (∀ ck, BuildCompKey .kRowMajor k f = some ck →
      KeyFromCompKey ck = k ∧ FieldFromCompKey ck = f) ∧
    (colon ∉ f → ∀ ck, BuildCompKey .kColumnMajor k f = some ck →
      KeyFromCompKey ck = f ∧ FieldFromCompKey ck = k) := by
  constructor
  · intro ck hck
    cases hck
    exact compKey_extractors k f hk
  · intro hf ck hck
    cases hck
    exact compKey_extractors f k hf

/-- Witness for C8 at concrete byte strings. -/
theorem compKey_roundtrip_witness :
    (colon ∉ ([107] : List Nat)) ∧
    (KeyFromCompKey ([107] ++ colon :: [97, 98]) = [107] ∧
     FieldFromCompKey ([107] ++ colon :: [97, 98]) = [97, 98]) ∧
    (KeyFromCompKey ([97, 98] ++ colon :: [107]) = [97, 98] ∧
     FieldFromCompKey ([97, 98] ++ colon :: [107]) = [107]) :=
  ⟨by decide,
   (compKey_roundtrip [107] [97, 98] (by decide)).1 _ rfl,
   (compKey_roundtrip [107] [97, 98] (by decide)).2 (by decide) _ rfl⟩

/-- Counterexample to C8 as frozen: its column-major clause quantifies over
*every* field name, but for a field name containing ':' (here "a:b") the key
extractor returns only the field name's prefix before its first ':'. -/
theorem compKey_roundtrip_counterexample :
    colon ∉ ([107] : List Nat) ∧
    BuildCompKey .kColumnMajor [107] [97, 58, 98] =
      some [97, 58, 98, 58, 107] ∧
    KeyFromCompKey [97, 58, 98, 58, 107] = [97] ∧
    ([97] : List Nat) ≠ [97, 58, 98] := by decide

/-! ## Shared-handle lifecycle (claim C9) -/

theorem lrun_invariants (t : List LOp) : ∀ s : LState,
    (lrun s t).ref = s.ref + (t.count .init : Int) - (t.count .cleanup : Int) ∧
    ((lrun s t).dbOpen = (s.dbOpen || decide (0 < t.count .init))) ∧
    (lrun s t).opens = s.opens +
      (if s.dbOpen then 0 else if t.count .init = 0 then 0 else 1) := by
  induction t with
  | nil =>
    intro s
    simp [lrun]
  | cons op t ih =>
    intro s
    obtain ⟨ih1, ih2, ih3⟩ := ih (lstep s op)
    have hrw : lrun s (op :: t) = lrun (lstep s op) t := rfl
    cases op with
    | init =>
      have href : (lstep s .init).ref = s.ref + 1 := by
        simp only [lstep]; split <;> rfl
      have hdbo : (lstep s .init).dbOpen = true := by
        simp only [lstep]; split <;> simp_all
      have hop : (lstep s .init).opens =
          if s.dbOpen then s.opens else s.opens + 1 := by
        simp only [lstep]; split <;> simp_all
      refine ⟨?_, ?_, ?_⟩
      · rw [hrw, ih1, href]; simp [List.count_cons]; omega
      · rw [hrw, ih2, hdbo]; simp [List.count_cons]
      · rw [hrw, ih3, hdbo, hop]
        by_cases h : s.dbOpen <;> simp [h, List.count_cons]
    | cleanup =>
      have href : (lstep s .cleanup).ref = s.ref - 1 := by
        simp only [lstep]; split <;> rfl
      have hdbo : (lstep s .cleanup).dbOpen = s.dbOpen := by
        simp only [lstep]; split <;> rfl
      have hop : (lstep s .cleanup).opens = s.opens := by
        simp only [lstep]; split <;> rfl
      refine ⟨?_, ?_, ?_⟩
      · rw [hrw, ih1, href]; simp [List.count_cons]; omega
      · rw [hrw, ih2, hdbo]; simp [List.count_cons]
      · rw [hrw, ih3, hdbo, hop]; simp [List.count_cons]

/-- C9: reference-counted shared-handle lifecycle. After any interleaving of
`n` init steps and `m` cleanup steps from the initial state, `ref_cnt_`
equals `n − m`; `db_` is non-null iff some init occurred; `OpenHashDB` ran at
most once (only from an init observing a null `db_`); an init observing a
non-null `db_` only increments the count; `delete db_` happens exactly in the
cleanup that brings the count to zero, and cleanup never resets `db_`.
The last two conjuncts tie the transition steps to the translated `Init` and
`Cleanup` functions. -/
theorem lifecycle_refcount (t : List LOp) :
    ((lrun initialLState t).ref =
      (t.count .init : Int) - (t.count .cleanup : Int)) ∧
    ((lrun initialLState t).dbOpen = true ↔ 0 < t.count .init) ∧
    ((lrun initialLState t).opens =
      if t.count .init = 0 then 0 else 1) ∧
    (∀ s : LState, s.dbOpen = true → lstep s .init =
      { s with ref := s.ref + 1 }) ∧
    (∀ s : LState, (lstep s .init).deletes = s.deletes) ∧
    (∀ s : LState, (lstep s .cleanup).dbOpen = s.dbOpen ∧
      (lstep s .cleanup).opens = s.opens ∧
      (lstep s .cleanup).deletes =
        s.deletes + (if s.ref - 1 = 0 then 1 else 0)) ∧
    (∀ props dbOpen refCnt, (Init props dbOpen refCnt).err = none →
      ((Init props dbOpen refCnt).refCnt = refCnt + 1 ∧
       (Init props dbOpen refCnt).dbOpen = true ∧
       ((Init props dbOpen refCnt).opened = true ↔ dbOpen = false))) ∧
    (∀ dbOpen refCnt, (Cleanup dbOpen refCnt).refCnt = refCnt - 1 ∧
      (Cleanup dbOpen refCnt).dbOpen = dbOpen ∧
      ((Cleanup dbOpen refCnt).deleted = true ↔ refCnt - 1 = 0)) := by
  obtain ⟨h1, h2, h3⟩ := lrun_invariants t initialLState
  refine ⟨?_, ?_, ?_, ?_, ?_, ?_, ?_, ?_⟩
  · rw [h1]; simp [initialLState]
  · rw [h2]; simp [initialLState]
  · rw [h3]; simp [initialLState]
  · intro s hs; simp [lstep, hs]
  · intro s; simp only [lstep]; split <;> rfl
  · intro s
    refine ⟨?_, ?_, ?_⟩ <;> simp only [lstep] <;> split <;> simp_all
  · intro props dbOpen refCnt herr
    unfold Init at herr ⊢
    rcases hfo : formatOf (getProperty props PROP_FORMAT PROP_FORMAT_DEFAULT)
        with _ | fmt <;> rw [hfo] at herr
    · simp at herr
    · rcases hst : stoiModel (getProperty props FIELD_COUNT_PROPERTY
          FIELD_COUNT_DEFAULT) with _ | fc <;> rw [hst] at herr
      · simp at herr
      · cases dbOpen
        · by_cases hp : getProperty props PROP_NAME PROP_NAME_DEFAULT = ""
          · simp [hp] at herr
          · simp [hp]
        · simp
  · intro dbOpen refCnt
    unfold Cleanup
    by_cases hr : refCnt - 1 = 0
    · simp [hr]
    · simp [hr]

/-- Witness for C9 at a concrete trace, state, and property map. -/
theorem lifecycle_refcount_witness :
    ((lrun initialLState [LOp.init, LOp.cleanup]).ref =
      (([LOp.init, LOp.cleanup].count LOp.init : Int) -
        ([LOp.init, LOp.cleanup].count LOp.cleanup : Int))) ∧
    (lstep ⟨true, 1, 1, 0⟩ .init =
      { dbOpen := true, ref := 2, opens := 1, deletes := 0 }) ∧
    ((Init [("hashdb.dbname", "db")] false 0).refCnt = 0 + 1 ∧
     (Init [("hashdb.dbname", "db")] false 0).dbOpen = true ∧
     ((Init [("hashdb.dbname", "db")] false 0).opened = true ↔
       false = false)) ∧
    ((Cleanup true 1).refCnt = 1 - 1 ∧ (Cleanup true 1).dbOpen = true ∧
     ((Cleanup true 1).deleted = true ↔ (1 : Int) - 1 = 0)) := by
  refine ⟨(lifecycle_refcount [LOp.init, LOp.cleanup]).1, ?_, ?_, ?_⟩
  · have h := (lifecycle_refcount []).2.2.2.1 ⟨true, 1, 1, 0⟩ rfl
    simpa using h
  · exact (lifecycle_refcount []).2.2.2.2.2.2.1 [("hashdb.dbname", "db")]
      false 0 (by decide)
  · exact (lifecycle_refcount []).2.2.2.2.2.2.2 true 1

/-! ## Equivalence of the two adapter translation units (claim C6) -/

theorem deserializeRowAux_eq : ∀ fuel data acc,
    P3.deserializeRowAux fuel data acc = deserializeRowAux fuel data acc := by
  intro fuel
  induction fuel with
  | zero => intro data acc; cases data <;> rfl
  | succ n ih =>
    intro data acc
    cases data with
    | nil => rfl
    | cons b l =>
      show (match readField (b :: l) with
        | none => none
        | some (f, rest) => P3.deserializeRowAux n rest (acc ++ [f])) =
        (match readField (b :: l) with
        | none => none
        | some (f, rest) => deserializeRowAux n rest (acc ++ [f]))
      cases readField (b :: l) with
      | none => rfl
      | some p => exact ih p.2 (acc ++ [p.1])

theorem deserializeRowFilterAux_eq : ∀ fuel data fl acc,
    P3.deserializeRowFilterAux fuel data fl acc =
      deserializeRowFilterAux fuel data fl acc := by
  intro fuel
  induction fuel with
  | zero => intro data fl acc; cases data <;> cases fl <;> rfl
  | succ n ih =>
    intro data fl acc
    cases data with
    | nil => cases fl <;> rfl
    | cons b l =>
      cases fl with
      | nil => rfl
      | cons f0 fs =>
        show (match readField (b :: l) with
          | none => none
          | some (f, rest) =>
            if f.name = f0 then P3.deserializeRowFilterAux n rest fs (acc ++ [f])
            else P3.deserializeRowFilterAux n rest (f0 :: fs) acc) =
          (match readField (b :: l) with
          | none => none
          | some (f, rest) =>
            if f.name = f0 then deserializeRowFilterAux n rest fs (acc ++ [f])
            else deserializeRowFilterAux n rest (f0 :: fs) acc)
        cases readField (b :: l) with
        | none => rfl
        | some p =>
          by_cases hn : p.1.name = f0
          · simp only [hn, if_pos rfl]
            exact ih p.2 fs (acc ++ [p.1])
          · simp only [if_neg hn]
            exact ih p.2 (f0 :: fs) acc

theorem readCompKeysLoop_eq (db : Engine) : ∀ cks acc calls,
    P3.readCompKeysLoop db cks acc calls =
      readCompKeysLoop db cks acc calls := by
  intro cks
  induction cks with
  | nil => intro acc calls; rfl
  | cons ck rest ih =>
    intro acc calls
    show (match engineGet db ck with
      | none => (Status.kNotFound, acc, calls ++ [ECall.get ck])
      | some v => P3.readCompKeysLoop db rest (acc ++ [Field.mk ck v])
          (calls ++ [ECall.get ck])) =
      (match engineGet db ck with
      | none => (Status.kNotFound, acc, calls ++ [ECall.get ck])
      | some v => readCompKeysLoop db rest (acc ++ [Field.mk ck v])
          (calls ++ [ECall.get ck]))
    cases engineGet db ck with
    | none => rfl
    | some v => exact ih (acc ++ [Field.mk ck v]) (calls ++ [ECall.get ck])

theorem insertCompKeyLoop_eq (fmt : Format) (key : List Nat) : ∀ vs db calls,
    P3.insertCompKeyLoop fmt key vs db calls =
      insertCompKeyLoop fmt key vs db calls := by
  intro vs
  induction vs with
  | nil => intro db calls; rfl
  | cons f fs ih =>
    intro db calls
    show (match BuildCompKey fmt key f.name with
      | none => none
      | some ck => P3.insertCompKeyLoop fmt key fs (engineSet db ck f.value)
          (calls ++ [ECall.set ck f.value])) =
      (match BuildCompKey fmt key f.name with
      | none => none
      | some ck => insertCompKeyLoop fmt key fs (engineSet db ck f.value)
          (calls ++ [ECall.set ck f.value]))
    cases BuildCompKey fmt key f.name with
    | none => rfl
    | some ck =>
      exact ih (engineSet db ck f.value) (calls ++ [ECall.set ck f.value])

theorem deleteCompKeyLoop_eq (fmt : Format) (key pref2 : List Nat) :
    ∀ is db calls,
    P3.deleteCompKeyLoop fmt key pref2 is db calls =
      deleteCompKeyLoop fmt key pref2 is db calls := by
  intro is
  induction is with
  | nil => intro db calls; rfl
  | cons i irest ih =>
    intro db calls
    show (match BuildCompKey fmt key (pref2 ++ natDecimalBytes i) with
      | none => none
      | some ck => P3.deleteCompKeyLoop fmt key pref2 irest
          (engineDelete db ck) (calls ++ [ECall.del ck])) =
      (match BuildCompKey fmt key (pref2 ++ natDecimalBytes i) with
      | none => none
      | some ck => deleteCompKeyLoop fmt key pref2 irest
          (engineDelete db ck) (calls ++ [ECall.del ck]))
    cases BuildCompKey fmt key (pref2 ++ natDecimalBytes i) with
    | none => rfl
    | some ck => exact ih (engineDelete db ck) (calls ++ [ECall.del ck])

theorem DeserializeRow_eq : P3.DeserializeRow = DeserializeRow := by
  funext data acc
  exact deserializeRowAux_eq data.length data acc

theorem DeserializeRowFilter_eq :
    P3.DeserializeRowFilter = DeserializeRowFilter := by
  funext data fl acc
  exact deserializeRowFilterAux_eq data.length data fl acc

theorem updateOneField_ptwise : ∀ cur nf,
    P3.updateOneField cur nf = updateOneField cur nf := by
  intro cur
  induction cur with
  | nil => intro nf; rfl
  | cons c cs ih =>
    intro nf
    show (if c.name = nf.name then { c with value := nf.value } :: cs
      else c :: P3.updateOneField cs nf) =
      (if c.name = nf.name then { c with value := nf.value } :: cs
      else c :: updateOneField cs nf)
    by_cases h : c.name = nf.name
    · simp [h]
    · simp [h, ih nf]

theorem updateOneField_eq : P3.updateOneField = updateOneField :=
  funext fun cur => funext fun nf => updateOneField_ptwise cur nf

theorem SerializeRow_eq : P3.SerializeRow = SerializeRow := rfl

theorem ReadSingleEntry_eq : P3.ReadSingleEntry = ReadSingleEntry := by
  funext db table key fields result
  unfold P3.ReadSingleEntry ReadSingleEntry
  rw [DeserializeRowFilter_eq, DeserializeRow_eq]

theorem UpdateSingleEntry_eq : P3.UpdateSingleEntry = UpdateSingleEntry := by
  funext db table key values
  unfold P3.UpdateSingleEntry UpdateSingleEntry
  rw [DeserializeRow_eq]
  simp only [P3.updateFields, updateFields, updateOneField_eq, SerializeRow_eq]

theorem ReadCompKeyRM_eq : P3.ReadCompKeyRM = ReadCompKeyRM := by
  funext db table key fields result fc pref2
  unfold P3.ReadCompKeyRM ReadCompKeyRM
  cases fields <;> simp only [readCompKeysLoop_eq]

theorem ReadCompKeyCM_eq : P3.ReadCompKeyCM = ReadCompKeyCM := by
  funext db table key fields result fc pref2
  unfold P3.ReadCompKeyCM ReadCompKeyCM
  cases fields <;> simp only [readCompKeysLoop_eq]

theorem InsertCompKey_eq : P3.InsertCompKey = InsertCompKey := by
  funext db fmt table key values
  unfold P3.InsertCompKey InsertCompKey
  rw [insertCompKeyLoop_eq]

theorem DeleteCompKey_eq : P3.DeleteCompKey = DeleteCompKey := by
  funext db fmt table key fc pref2
  unfold P3.DeleteCompKey DeleteCompKey
  rw [deleteCompKeyLoop_eq]

theorem P3Init_relation (props : Props) (dbOpen : Bool) (refCnt : Int)
    (flags flags' : Flags) (h : P3.SetGflags props flags = some flags') :
    P3.Init props dbOpen refCnt flags =
      (Init props dbOpen refCnt,
       if (Init props dbOpen refCnt).opened then flags' else flags) := by
  unfold P3.Init Init
  rcases hfo : formatOf (getProperty props PROP_FORMAT PROP_FORMAT_DEFAULT)
      with _ | fmt
  · simp
  · rcases hst : stoiModel (getProperty props FIELD_COUNT_PROPERTY
        FIELD_COUNT_DEFAULT) with _ | fc
    · simp
    · cases dbOpen
      · by_cases hp : getProperty props PROP_NAME PROP_NAME_DEFAULT = ""
        · simp [hp]
        · simp [hp, h]
      · simp

/-- C6: the two adapter translation units are observationally equivalent on
the data path — every operation, serialization helper, and composite-key
helper of `src/unnamed/part_003` equals its `src/hashdb/hashdb_db.cc`
counterpart (same results, same engine-call sequences) — and their `Init`
paths differ only in that part_003 additionally applies `SetGflags(props)`
before destroying/opening the database. -/
theorem adapter_versions_equivalent :
    P3.SerializeRow = SerializeRow ∧
    P3.DeserializeRow = DeserializeRow ∧
    P3.DeserializeRowFilter = DeserializeRowFilter ∧
    P3.BuildCompKey = BuildCompKey ∧
    P3.KeyFromCompKey = KeyFromCompKey ∧
    P3.FieldFromCompKey = FieldFromCompKey ∧
    P3.ReadSingleEntry = ReadSingleEntry ∧
    P3.ScanSingleEntry = ScanSingleEntry ∧
    P3.UpdateSingleEntry = UpdateSingleEntry ∧
    P3.InsertSingleEntry = InsertSingleEntry ∧
    P3.DeleteSingleEntry = DeleteSingleEntry ∧
    P3.ReadCompKeyRM = ReadCompKeyRM ∧
    P3.ScanCompKeyRM = ScanCompKeyRM ∧
    P3.ReadCompKeyCM = ReadCompKeyCM ∧
    P3.ScanCompKeyCM = ScanCompKeyCM ∧
    P3.InsertCompKey = InsertCompKey ∧
    P3.DeleteCompKey = DeleteCompKey ∧
    (∀ props dbOpen refCnt flags flags',
      P3.SetGflags props flags = some flags' →
      P3.Init props dbOpen refCnt flags =
        (Init props dbOpen refCnt,
         if (Init props dbOpen refCnt).opened then flags' else flags)) :=
  ⟨rfl, DeserializeRow_eq, DeserializeRowFilter_eq, rfl, rfl, rfl,
   ReadSingleEntry_eq, rfl, UpdateSingleEntry_eq, rfl, rfl,
   ReadCompKeyRM_eq, rfl, ReadCompKeyCM_eq, rfl, InsertCompKey_eq,
   DeleteCompKey_eq,
   fun props dbOpen refCnt flags flags' h =>
     P3Init_relation props dbOpen refCnt flags flags' h⟩

/-- Witness for C6's `Init` clause at concrete inputs. -/
theorem adapter_versions_equivalent_witness :
    P3.SetGflags [] flags0 = some flags0 ∧
    P3.Init [] false 0 flags0 =
      (Init [] false 0,
       if (Init [] false 0).opened then flags0 else flags0) :=
  ⟨rfl,
   adapter_versions_equivalent.2.2.2.2.2.2.2.2.2.2.2.2.2.2.2.2.2
     [] false 0 flags0 flags0 rfl⟩

end Hashdb

namespace Hashdb.P3

theorem preservesF_of_self {g : Flags → Option Flags}
    (h : ∀ f, g f = some f) {α : Type} (proj : Flags → α) :
    PreservesF g proj := by
  intro f f' hgf
  rw [h f] at hgf
  cases hgf
  rfl

theorem foldlM_preserves {α : Type} (proj : Flags → α) :
    ∀ (steps : List (Flags → Option Flags)),
      (∀ s ∈ steps, PreservesF s proj) →
      ∀ f f', steps.foldlM (fun g s => s g) f = some f' →
      proj f' = proj f := by
  intro steps
  induction steps with
  | nil =>
    intro _ f f' h
    cases h
    rfl
  | cons s rest ih =>
    intro hall f f' h
    rw [List.foldlM_cons] at h
    rcases hb : s f with _ | f1 <;> rw [hb] at h
    · simp at h
    · have h1 : proj f1 = proj f := hall s (by simp) f f1 hb
      have h2 : proj f' = proj f1 :=
        ih (fun s2 hs2 => hall s2 (by simp [hs2])) f1 f' h
      rw [h2, h1]

theorem setGflags_preserves {α : Type} (props : Props) (proj : Flags → α)
    (hsteps : ∀ s ∈ gflagSteps props, PreservesF s proj) :
    ∀ f f', SetGflags props f = some f' → proj f' = proj f := by
  intro f f' h
  exact foldlM_preserves proj (gflagSteps props) hsteps f f' h

theorem setStrFlag_preserves {α : Type} (props : Props) (name : String)
    (set : Flags → String → Flags) (proj : Flags → α)
    (hp : ∀ f v, proj (set f v) = proj f) :
    PreservesF (setStrFlag props name set) proj := by
  intro f f' h
  unfold setStrFlag at h
  dsimp only at h
  split at h
  · cases h; rfl
  · cases h; exact hp f _

theorem setU64Flag_preserves {α : Type} (props : Props) (name : String)
    (set : Flags → Nat → Flags) (proj : Flags → α)
    (hp : ∀ f v, proj (set f v) = proj f) :
    PreservesF (setU64Flag props name set) proj := by
  intro f f' h
  unfold setU64Flag at h
  dsimp only at h
  split at h
  · cases h; rfl
  · rcases hv : stoullModel (getProperty props name "") with _ | v <;>
      rw [hv] at h
    · cases h
    · have hsome : some (set f v) = some f' := h
      cases hsome
      exact hp f _

theorem setU32Flag_preserves {α : Type} (props : Props) (name : String)
    (set : Flags → Nat → Flags) (proj : Flags → α)
    (hp : ∀ f v, proj (set f v) = proj f) :
    PreservesF (setU32Flag props name set) proj := by
  intro f f' h
  unfold setU32Flag at h
  dsimp only at h
  split at h
  · cases h; rfl
  · rcases hv : stoullModel (getProperty props name "") with _ | v <;>
      rw [hv] at h
    · cases h
    · have hsome : some (set f (v % 2 ^ 32)) = some f' := h
      cases hsome
      exact hp f _

theorem setDblFlag_preserves {α : Type} (props : Props) (name : String)
    (set : Flags → String → Flags) (proj : Flags → α)
    (hp : ∀ f v, proj (set f v) = proj f) :
    PreservesF (setDblFlag props name set) proj := by
  intro f f' h
  unfold setDblFlag at h
  dsimp only at h
  split at h
  · cases h; rfl
  · split at h
    · cases h; exact hp f _
    · cases h

theorem setBoolFlag_preserves {α : Type} (props : Props) (name : String)
    (set : Flags → Bool → Flags) (proj : Flags → α)
    (hp : ∀ f v, proj (set f v) = proj f) :
    PreservesF (setBoolFlag props name set) proj := by
  intro f f' h
  unfold setBoolFlag at h
  dsimp only at h
  split at h
  · cases h; rfl
  · split at h
    · cases h; exact hp f _
    · split at h
      · cases h; exact hp f _
      · cases h; rfl

theorem setStrFlag_self (props : Props) (name : String)
    (set : Flags → String → Flags)
    (he : getProperty props name "" = "") :
    ∀ f, setStrFlag props name set f = some f := by
  intro f
  simp [setStrFlag, he]

theorem setU64Flag_self (props : Props) (name : String)
    (set : Flags → Nat → Flags)
    (he : getProperty props name "" = "") :
    ∀ f, setU64Flag props name set f = some f := by
  intro f
  simp [setU64Flag, he]

theorem setU32Flag_self (props : Props) (name : String)
    (set : Flags → Nat → Flags)
    (he : getProperty props name "" = "") :
    ∀ f, setU32Flag props name set f = some f := by
  intro f
  simp [setU32Flag, he]

theorem setDblFlag_self (props : Props) (name : String)
    (set : Flags → String → Flags)
    (he : getProperty props name "" = "") :
    ∀ f, setDblFlag props name set f = some f := by
  intro f
  simp [setDblFlag, he]

theorem setBoolFlag_self (props : Props) (name : String)
    (set : Flags → Bool → Flags)
    (ht : getProperty props name "" ≠ "true")
    (hf : getProperty props name "" ≠ "false") :
    ∀ f, setBoolFlag props name set f = some f := by
  intro f
  unfold setBoolFlag
  dsimp only
  by_cases h1 : getProperty props name "" = ""
  · rw [if_pos h1]
  · rw [if_neg h1, if_neg ht, if_neg hf]

theorem setBoolFlag_self_of_empty (props : Props) (name : String)
    (set : Flags → Bool → Flags)
    (he : getProperty props name "" = "") :
    ∀ f, setBoolFlag props name set f = some f := by
  intro f
  simp [setBoolFlag, he]

end Hashdb.P3

namespace Hashdb.P3

/-- C7: configuration frame property of `SetGflags`. When `SetGflags(props)`
completes, every flag whose `hashdb.*` property is absent or empty in `props`
retains its previous value; a boolean flag changes only when its property
text is exactly `"true"` or `"false"`; and the `main_*` flags, named by no
property, are never assigned. -/
theorem setGflags_frame (props : Props) (flags flags' : Flags)
    (h : SetGflags props flags = some flags') :
    (getProperty props PROP_hashdb_files_directory "" = "" →
      flags'.hashdb_files_directory = flags.hashdb_files_directory) ∧
    (getProperty props PROP_hashdb_data_files_directory "" = "" →
      flags'.hashdb_data_files_directory = flags.hashdb_data_files_directory) ∧
    (getProperty props PROP_hashdb_index_files_directory "" = "" →
      flags'.hashdb_index_files_directory = flags.hashdb_index_files_directory) ∧
    (getProperty props PROP_hashdb_slots_map_size "" = "" →
      flags'.hashdb_slots_map_size = flags.hashdb_slots_map_size) ∧
    (getProperty props PROP_hashdb_foreground_threads_num "" = "" →
      flags'.hashdb_foreground_threads_num = flags.hashdb_foreground_threads_num) ∧
    (getProperty props PROP_hashdb_background_threads_num "" = "" →
      flags'.hashdb_background_threads_num = flags.hashdb_background_threads_num) ∧
    (getProperty props PROP_blob_approximate_size "" = "" →
      flags'.blob_approximate_size = flags.blob_approximate_size) ∧
    (getProperty props PROP_blob_write_buffer_size "" = "" →
      flags'.blob_write_buffer_size = flags.blob_write_buffer_size) ∧
    (getProperty props PROP_blob_gc_min_utility_threshold "" = "" →
      flags'.blob_gc_min_utility_threshold = flags.blob_gc_min_utility_threshold) ∧
    (getProperty props PROP_gc_enable "" = "" →
      flags'.gc_enable = flags.gc_enable) ∧
    (getProperty props PROP_gc_check_every_some_writes "" = "" →
      flags'.gc_check_every_some_writes = flags.gc_check_every_some_writes) ∧
    (getProperty props PROP_gc_enable_data_files_gc "" = "" →
      flags'.gc_enable_data_files_gc = flags.gc_enable_data_files_gc) ∧
    (getProperty props PROP_gc_trigger_min_blob_num "" = "" →
      flags'.gc_trigger_min_blob_num = flags.gc_trigger_min_blob_num) ∧
    (getProperty props PROP_gc_enable_cache_evict "" = "" →
      flags'.gc_enable_cache_evict = flags.gc_enable_cache_evict) ∧
    (getProperty props PROP_gc_cache_max_threshold "" = "" →
      flags'.gc_cache_max_threshold = flags.gc_cache_max_threshold) ∧
    (getProperty props PROP_gc_max_evict_slot_num_per_round "" = "" →
      flags'.gc_max_evict_slot_num_per_round = flags.gc_max_evict_slot_num_per_round) ∧
    (getProperty props PROP_gc_enable_index_colddown "" = "" →
      flags'.gc_enable_index_colddown = flags.gc_enable_index_colddown) ∧
    (getProperty props PROP_gc_max_colddown_index_slot_num_per_round "" = "" →
      flags'.gc_max_colddown_index_slot_num_per_round = flags.gc_max_colddown_index_slot_num_per_round) ∧
    (getProperty props PROP_bloom_filters_num "" = "" →
      flags'.bloom_filters_num = flags.bloom_filters_num) ∧
    (getProperty props PROP_bloom_filters_false_positive_rate "" = "" →
      flags'.bloom_filters_false_positive_rate = flags.bloom_filters_false_positive_rate) ∧
    (getProperty props PROP_bloom_filters_elements_num "" = "" →
      flags'.bloom_filters_elements_num = flags.bloom_filters_elements_num) ∧
    (getProperty props PROP_gc_enable "" ≠ "true" →
      getProperty props PROP_gc_enable "" ≠ "false" →
      flags'.gc_enable = flags.gc_enable) ∧
    (getProperty props PROP_gc_enable_data_files_gc "" ≠ "true" →
      getProperty props PROP_gc_enable_data_files_gc "" ≠ "false" →
      flags'.gc_enable_data_files_gc = flags.gc_enable_data_files_gc) ∧
    (getProperty props PROP_gc_enable_cache_evict "" ≠ "true" →
      getProperty props PROP_gc_enable_cache_evict "" ≠ "false" →
      flags'.gc_enable_cache_evict = flags.gc_enable_cache_evict) ∧
    (getProperty props PROP_gc_enable_index_colddown "" ≠ "true" →
      getProperty props PROP_gc_enable_index_colddown "" ≠ "false" →
      flags'.gc_enable_index_colddown = flags.gc_enable_index_colddown) ∧
    flags'.main_key_range = flags.main_key_range ∧
    flags'.main_write_key_times = flags.main_write_key_times ∧
    flags'.main_record_size = flags.main_record_size ∧
    flags'.main_key_size = flags.main_key_size ∧
    flags'.main_threads_num = flags.main_threads_num := by
  refine ⟨?_, ?_, ?_, ?_, ?_, ?_, ?_, ?_, ?_, ?_, ?_, ?_, ?_, ?_, ?_, ?_, ?_, ?_, ?_, ?_, ?_, ?_, ?_, ?_, ?_, ?_, ?_, ?_, ?_, ?_⟩
  · intro he
    refine setGflags_preserves props (fun f => f.hashdb_files_directory) ?_ flags flags' h
    intro s hs
    simp only [gflagSteps, List.mem_cons, List.not_mem_nil,
      or_false] at hs
    rcases hs with rfl | rfl | rfl | rfl | rfl | rfl | rfl | rfl | rfl | rfl | rfl | rfl | rfl | rfl | rfl | rfl | rfl | rfl | rfl | rfl | rfl
    · exact preservesF_of_self (setStrFlag_self _ _ _ he) _
    · exact setStrFlag_preserves _ _ _ _ (fun _ _ => rfl)
    · exact setStrFlag_preserves _ _ _ _ (fun _ _ => rfl)
    · exact setU32Flag_preserves _ _ _ _ (fun _ _ => rfl)
    · exact setU32Flag_preserves _ _ _ _ (fun _ _ => rfl)
    · exact setU32Flag_preserves _ _ _ _ (fun _ _ => rfl)
    · exact setU64Flag_preserves _ _ _ _ (fun _ _ => rfl)
    · exact setU32Flag_preserves _ _ _ _ (fun _ _ => rfl)
    · exact setDblFlag_preserves _ _ _ _ (fun _ _ => rfl)
    · exact setBoolFlag_preserves _ _ _ _ (fun _ _ => rfl)
    · exact setU64Flag_preserves _ _ _ _ (fun _ _ => rfl)
    · exact setBoolFlag_preserves _ _ _ _ (fun _ _ => rfl)
    · exact setU32Flag_preserves _ _ _ _ (fun _ _ => rfl)
    · exact setBoolFlag_preserves _ _ _ _ (fun _ _ => rfl)
    · exact setU64Flag_preserves _ _ _ _ (fun _ _ => rfl)
    · exact setU32Flag_preserves _ _ _ _ (fun _ _ => rfl)
    · exact setBoolFlag_preserves _ _ _ _ (fun _ _ => rfl)
    · exact setU32Flag_preserves _ _ _ _ (fun _ _ => rfl)
    · exact setU32Flag_preserves _ _ _ _ (fun _ _ => rfl)
    · exact setDblFlag_preserves _ _ _ _ (fun _ _ => rfl)
    · exact setU32Flag_preserves _ _ _ _ (fun _ _ => rfl)
  · intro he
    refine setGflags_preserves props (fun f => f.hashdb_data_files_directory) ?_ flags flags' h
    intro s hs
    simp only [gflagSteps, List.mem_cons, List.not_mem_nil,
      or_false] at hs
    rcases hs with rfl | rfl | rfl | rfl | rfl | rfl | rfl | rfl | rfl | rfl | rfl | rfl | rfl | rfl | rfl | rfl | rfl | rfl | rfl | rfl | rfl
    · exact setStrFlag_preserves _ _ _ _ (fun _ _ => rfl)
    · exact preservesF_of_self (setStrFlag_self _ _ _ he) _
    · exact setStrFlag_preserves _ _ _ _ (fun _ _ => rfl)
    · exact setU32Flag_preserves _ _ _ _ (fun _ _ => rfl)
    · exact setU32Flag_preserves _ _ _ _ (fun _ _ => rfl)
    · exact setU32Flag_preserves _ _ _ _ (fun _ _ => rfl)
    · exact setU64Flag_preserves _ _ _ _ (fun _ _ => rfl)
    · exact setU32Flag_preserves _ _ _ _ (fun _ _ => rfl)
    · exact setDblFlag_preserves _ _ _ _ (fun _ _ => rfl)
    · exact setBoolFlag_preserves _ _ _ _ (fun _ _ => rfl)
    · exact setU64Flag_preserves _ _ _ _ (fun _ _ => rfl)
    · exact setBoolFlag_preserves _ _ _ _ (fun _ _ => rfl)
    · exact setU32Flag_preserves _ _ _ _ (fun _ _ => rfl)
    · exact setBoolFlag_preserves _ _ _ _ (fun _ _ => rfl)
    · exact setU64Flag_preserves _ _ _ _ (fun _ _ => rfl)
    · exact setU32Flag_preserves _ _ _ _ (fun _ _ => rfl)
    · exact setBoolFlag_preserves _ _ _ _ (fun _ _ => rfl)
    · exact setU32Flag_preserves _ _ _ _ (fun _ _ => rfl)
    · exact setU32Flag_preserves _ _ _ _ (fun _ _ => rfl)
    · exact setDblFlag_preserves _ _ _ _ (fun _ _ => rfl)
    · exact setU32Flag_preserves _ _ _ _ (fun _ _ => rfl)
  · intro he
    refine setGflags_preserves props (fun f => f.hashdb_index_files_directory) ?_ flags flags' h
    intro s hs
    simp only [gflagSteps, List.mem_cons, List.not_mem_nil,
      or_false] at hs
    rcases hs with rfl | rfl | rfl | rfl | rfl | rfl | rfl | rfl | rfl | rfl | rfl | rfl | rfl | rfl | rfl | rfl | rfl | rfl | rfl | rfl | rfl
    · exact setStrFlag_preserves _ _ _ _ (fun _ _ => rfl)
    · exact setStrFlag_preserves _ _ _ _ (fun _ _ => rfl)
    · exact preservesF_of_self (setStrFlag_self _ _ _ he) _
    · exact setU32Flag_preserves _ _ _ _ (fun _ _ => rfl)
    · exact setU32Flag_preserves _ _ _ _ (fun _ _ => rfl)
    · exact setU32Flag_preserves _ _ _ _ (fun _ _ => rfl)
    · exact setU64Flag_preserves _ _ _ _ (fun _ _ => rfl)
    · exact setU32Flag_preserves _ _ _ _ (fun _ _ => rfl)
    · exact setDblFlag_preserves _ _ _ _ (fun _ _ => rfl)
    · exact setBoolFlag_preserves _ _ _ _ (fun _ _ => rfl)
    · exact setU64Flag_preserves _ _ _ _ (fun _ _ => rfl)
    · exact setBoolFlag_preserves _ _ _ _ (fun _ _ => rfl)
    · exact setU32Flag_preserves _ _ _ _ (fun _ _ => rfl)
    · exact setBoolFlag_preserves _ _ _ _ (fun _ _ => rfl)
    · exact setU64Flag_preserves _ _ _ _ (fun _ _ => rfl)
    · exact setU32Flag_preserves _ _ _ _ (fun _ _ => rfl)
    · exact setBoolFlag_preserves _ _ _ _ (fun _ _ => rfl)
    · exact setU32Flag_preserves _ _ _ _ (fun _ _ => rfl)
    · exact setU32Flag_preserves _ _ _ _ (fun _ _ => rfl)
    · exact setDblFlag_preserves _ _ _ _ (fun _ _ => rfl)
    · exact setU32Flag_preserves _ _ _ _ (fun _ _ => rfl)
  · intro he
    refine setGflags_preserves props (fun f => f.hashdb_slots_map_size) ?_ flags flags' h
    intro s hs
    simp only [gflagSteps, List.mem_cons, List.not_mem_nil,
      or_false] at hs
    rcases hs with rfl | rfl | rfl | rfl | rfl | rfl | rfl | rfl | rfl | rfl | rfl | rfl | rfl | rfl | rfl | rfl | rfl | rfl | rfl | rfl | rfl
    · exact setStrFlag_preserves _ _ _ _ (fun _ _ => rfl)
    · exact setStrFlag_preserves _ _ _ _ (fun _ _ => rfl)
    · exact setStrFlag_preserves _ _ _ _ (fun _ _ => rfl)
    · exact preservesF_of_self (setU32Flag_self _ _ _ he) _
    · exact setU32Flag_preserves _ _ _ _ (fun _ _ => rfl)
    · exact setU32Flag_preserves _ _ _ _ (fun _ _ => rfl)
    · exact setU64Flag_preserves _ _ _ _ (fun _ _ => rfl)
    · exact setU32Flag_preserves _ _ _ _ (fun _ _ => rfl)
    · exact setDblFlag_preserves _ _ _ _ (fun _ _ => rfl)
    · exact setBoolFlag_preserves _ _ _ _ (fun _ _ => rfl)
    · exact setU64Flag_preserves _ _ _ _ (fun _ _ => rfl)
    · exact setBoolFlag_preserves _ _ _ _ (fun _ _ => rfl)
    · exact setU32Flag_preserves _ _ _ _ (fun _ _ => rfl)
    · exact setBoolFlag_preserves _ _ _ _ (fun _ _ => rfl)
    · exact setU64Flag_preserves _ _ _ _ (fun _ _ => rfl)
    · exact setU32Flag_preserves _ _ _ _ (fun _ _ => rfl)
    · exact setBoolFlag_preserves _ _ _ _ (fun _ _ => rfl)
    · exact setU32Flag_preserves _ _ _ _ (fun _ _ => rfl)
    · exact setU32Flag_preserves _ _ _ _ (fun _ _ => rfl)
    · exact setDblFlag_preserves _ _ _ _ (fun _ _ => rfl)
    · exact setU32Flag_preserves _ _ _ _ (fun _ _ => rfl)
  · intro he
    refine setGflags_preserves props (fun f => f.hashdb_foreground_threads_num) ?_ flags flags' h
    intro s hs
    simp only [gflagSteps, List.mem_cons, List.not_mem_nil,
      or_false] at hs
    rcases hs with rfl | rfl | rfl | rfl | rfl | rfl | rfl | rfl | rfl | rfl | rfl | rfl | rfl | rfl | rfl | rfl | rfl | rfl | rfl | rfl | rfl
    · exact setStrFlag_preserves _ _ _ _ (fun _ _ => rfl)
    · exact setStrFlag_preserves _ _ _ _ (fun _ _ => rfl)
    · exact setStrFlag_preserves _ _ _ _ (fun _ _ => rfl)
    · exact setU32Flag_preserves _ _ _ _ (fun _ _ => rfl)
    · exact preservesF_of_self (setU32Flag_self _ _ _ he) _
    · exact setU32Flag_preserves _ _ _ _ (fun _ _ => rfl)
    · exact setU64Flag_preserves _ _ _ _ (fun _ _ => rfl)
    · exact setU32Flag_preserves _ _ _ _ (fun _ _ => rfl)
    · exact setDblFlag_preserves _ _ _ _ (fun _ _ => rfl)
    · exact setBoolFlag_preserves _ _ _ _ (fun _ _ => rfl)
    · exact setU64Flag_preserves _ _ _ _ (fun _ _ => rfl)
    · exact setBoolFlag_preserves _ _ _ _ (fun _ _ => rfl)
    · exact setU32Flag_preserves _ _ _ _ (fun _ _ => rfl)
    · exact setBoolFlag_preserves _ _ _ _ (fun _ _ => rfl)
    · exact setU64Flag_preserves _ _ _ _ (fun _ _ => rfl)
    · exact setU32Flag_preserves _ _ _ _ (fun _ _ => rfl)
    · exact setBoolFlag_preserves _ _ _ _ (fun _ _ => rfl)
    · exact setU32Flag_preserves _ _ _ _ (fun _ _ => rfl)
    · exact setU32Flag_preserves _ _ _ _ (fun _ _ => rfl)
    · exact setDblFlag_preserves _ _ _ _ (fun _ _ => rfl)
    · exact setU32Flag_preserves _ _ _ _ (fun _ _ => rfl)
  · intro he
    refine setGflags_preserves props (fun f => f.hashdb_background_threads_num) ?_ flags flags' h
    intro s hs
    simp only [gflagSteps, List.mem_cons, List.not_mem_nil,
      or_false] at hs
    rcases hs with rfl | rfl | rfl | rfl | rfl | rfl | rfl | rfl | rfl | rfl | rfl | rfl | rfl | rfl | rfl | rfl | rfl | rfl | rfl | rfl | rfl
    · exact setStrFlag_preserves _ _ _ _ (fun _ _ => rfl)
    · exact setStrFlag_preserves _ _ _ _ (fun _ _ => rfl)
    · exact setStrFlag_preserves _ _ _ _ (fun _ _ => rfl)
    · exact setU32Flag_preserves _ _ _ _ (fun _ _ => rfl)
    · exact setU32Flag_preserves _ _ _ _ (fun _ _ => rfl)
    · exact preservesF_of_self (setU32Flag_self _ _ _ he) _
    · exact setU64Flag_preserves _ _ _ _ (fun _ _ => rfl)
    · exact setU32Flag_preserves _ _ _ _ (fun _ _ => rfl)
    · exact setDblFlag_preserves _ _ _ _ (fun _ _ => rfl)
    · exact setBoolFlag_preserves _ _ _ _ (fun _ _ => rfl)
    · exact setU64Flag_preserves _ _ _ _ (fun _ _ => rfl)
    · exact setBoolFlag_preserves _ _ _ _ (fun _ _ => rfl)
    · exact setU32Flag_preserves _ _ _ _ (fun _ _ => rfl)
    · exact setBoolFlag_preserves _ _ _ _ (fun _ _ => rfl)
    · exact setU64Flag_preserves _ _ _ _ (fun _ _ => rfl)
    · exact setU32Flag_preserves _ _ _ _ (fun _ _ => rfl)
    · exact setBoolFlag_preserves _ _ _ _ (fun _ _ => rfl)
    · exact setU32Flag_preserves _ _ _ _ (fun _ _ => rfl)
    · exact setU32Flag_preserves _ _ _ _ (fun _ _ => rfl)
    · exact setDblFlag_preserves _ _ _ _ (fun _ _ => rfl)
    · exact setU32Flag_preserves _ _ _ _ (fun _ _ => rfl)
  · intro he
    refine setGflags_preserves props (fun f => f.blob_approximate_size) ?_ flags flags' h
    intro s hs
    simp only [gflagSteps, List.mem_cons, List.not_mem_nil,
      or_false] at hs
    rcases hs with rfl | rfl | rfl | rfl | rfl | rfl | rfl | rfl | rfl | rfl | rfl | rfl | rfl | rfl | rfl | rfl | rfl | rfl | rfl | rfl | rfl
    · exact setStrFlag_preserves _ _ _ _ (fun _ _ => rfl)
    · exact setStrFlag_preserves _ _ _ _ (fun _ _ => rfl)
    · exact setStrFlag_preserves _ _ _ _ (fun _ _ => rfl)
    · exact setU32Flag_preserves _ _ _ _ (fun _ _ => rfl)
    · exact setU32Flag_preserves _ _ _ _ (fun _ _ => rfl)
    · exact setU32Flag_preserves _ _ _ _ (fun _ _ => rfl)
    · exact preservesF_of_self (setU64Flag_self _ _ _ he) _
    · exact setU32Flag_preserves _ _ _ _ (fun _ _ => rfl)
    · exact setDblFlag_preserves _ _ _ _ (fun _ _ => rfl)
    · exact setBoolFlag_preserves _ _ _ _ (fun _ _ => rfl)
    · exact setU64Flag_preserves _ _ _ _ (fun _ _ => rfl)
    · exact setBoolFlag_preserves _ _ _ _ (fun _ _ => rfl)
    · exact setU32Flag_preserves _ _ _ _ (fun _ _ => rfl)
    · exact setBoolFlag_preserves _ _ _ _ (fun _ _ => rfl)
    · exact setU64Flag_preserves _ _ _ _ (fun _ _ => rfl)
    · exact setU32Flag_preserves _ _ _ _ (fun _ _ => rfl)
    · exact setBoolFlag_preserves _ _ _ _ (fun _ _ => rfl)
    · exact setU32Flag_preserves _ _ _ _ (fun _ _ => rfl)
    · exact setU32Flag_preserves _ _ _ _ (fun _ _ => rfl)
    · exact setDblFlag_preserves _ _ _ _ (fun _ _ => rfl)
    · exact setU32Flag_preserves _ _ _ _ (fun _ _ => rfl)
  · intro he
    refine setGflags_preserves props (fun f => f.blob_write_buffer_size) ?_ flags flags' h
    intro s hs
    simp only [gflagSteps, List.mem_cons, List.not_mem_nil,
      or_false] at hs
    rcases hs with rfl | rfl | rfl | rfl | rfl | rfl | rfl | rfl | rfl | rfl | rfl | rfl | rfl | rfl | rfl | rfl | rfl | rfl | rfl | rfl | rfl
    · exact setStrFlag_preserves _ _ _ _ (fun _ _ => rfl)
    · exact setStrFlag_preserves _ _ _ _ (fun _ _ => rfl)
    · exact setStrFlag_preserves _ _ _ _ (fun _ _ => rfl)
    · exact setU32Flag_preserves _ _ _ _ (fun _ _ => rfl)
    · exact setU32Flag_preserves _ _ _ _ (fun _ _ => rfl)
    · exact setU32Flag_preserves _ _ _ _ (fun _ _ => rfl)
    · exact setU64Flag_preserves _ _ _ _ (fun _ _ => rfl)
    · exact preservesF_of_self (setU32Flag_self _ _ _ he) _
    · exact setDblFlag_preserves _ _ _ _ (fun _ _ => rfl)
    · exact setBoolFlag_preserves _ _ _ _ (fun _ _ => rfl)
    · exact setU64Flag_preserves _ _ _ _ (fun _ _ => rfl)
    · exact setBoolFlag_preserves _ _ _ _ (fun _ _ => rfl)
    · exact setU32Flag_preserves _ _ _ _ (fun _ _ => rfl)
    · exact setBoolFlag_preserves _ _ _ _ (fun _ _ => rfl)
    · exact setU64Flag_preserves _ _ _ _ (fun _ _ => rfl)
    · exact setU32Flag_preserves _ _ _ _ (fun _ _ => rfl)
    · exact setBoolFlag_preserves _ _ _ _ (fun _ _ => rfl)
    · exact setU32Flag_preserves _ _ _ _ (fun _ _ => rfl)
    · exact setU32Flag_preserves _ _ _ _ (fun _ _ => rfl)
    · exact setDblFlag_preserves _ _ _ _ (fun _ _ => rfl)
    · exact setU32Flag_preserves _ _ _ _ (fun _ _ => rfl)
  · intro he
    refine setGflags_preserves props (fun f => f.blob_gc_min_utility_threshold) ?_ flags flags' h
    intro s hs
    simp only [gflagSteps, List.mem_cons, List.not_mem_nil,
      or_false] at hs
    rcases hs with rfl | rfl | rfl | rfl | rfl | rfl | rfl | rfl | rfl | rfl | rfl | rfl | rfl | rfl | rfl | rfl | rfl | rfl | rfl | rfl | rfl
    · exact setStrFlag_preserves _ _ _ _ (fun _ _ => rfl)
    · exact setStrFlag_preserves _ _ _ _ (fun _ _ => rfl)
    · exact setStrFlag_preserves _ _ _ _ (fun _ _ => rfl)
    · exact setU32Flag_preserves _ _ _ _ (fun _ _ => rfl)
    · exact setU32Flag_preserves _ _ _ _ (fun _ _ => rfl)
    · exact setU32Flag_preserves _ _ _ _ (fun _ _ => rfl)
    · exact setU64Flag_preserves _ _ _ _ (fun _ _ => rfl)
    · exact setU32Flag_preserves _ _ _ _ (fun _ _ => rfl)
    · exact preservesF_of_self (setDblFlag_self _ _ _ he) _
    · exact setBoolFlag_preserves _ _ _ _ (fun _ _ => rfl)
    · exact setU64Flag_preserves _ _ _ _ (fun _ _ => rfl)
    · exact setBoolFlag_preserves _ _ _ _ (fun _ _ => rfl)
    · exact setU32Flag_preserves _ _ _ _ (fun _ _ => rfl)
    · exact setBoolFlag_preserves _ _ _ _ (fun _ _ => rfl)
    · exact setU64Flag_preserves _ _ _ _ (fun _ _ => rfl)
    · exact setU32Flag_preserves _ _ _ _ (fun _ _ => rfl)
    · exact setBoolFlag_preserves _ _ _ _ (fun _ _ => rfl)
    · exact setU32Flag_preserves _ _ _ _ (fun _ _ => rfl)
    · exact setU32Flag_preserves _ _ _ _ (fun _ _ => rfl)
    · exact setDblFlag_preserves _ _ _ _ (fun _ _ => rfl)
    · exact setU32Flag_preserves _ _ _ _ (fun _ _ => rfl)
  · intro he
    refine setGflags_preserves props (fun f => f.gc_enable) ?_ flags flags' h
    intro s hs
    simp only [gflagSteps, List.mem_cons, List.not_mem_nil,
      or_false] at hs
    rcases hs with rfl | rfl | rfl | rfl | rfl | rfl | rfl | rfl | rfl | rfl | rfl | rfl | rfl | rfl | rfl | rfl | rfl | rfl | rfl | rfl | rfl
    · exact setStrFlag_preserves _ _ _ _ (fun _ _ => rfl)
    · exact setStrFlag_preserves _ _ _ _ (fun _ _ => rfl)
    · exact setStrFlag_preserves _ _ _ _ (fun _ _ => rfl)
    · exact setU32Flag_preserves _ _ _ _ (fun _ _ => rfl)
    · exact setU32Flag_preserves _ _ _ _ (fun _ _ => rfl)
    · exact setU32Flag_preserves _ _ _ _ (fun _ _ => rfl)
    · exact setU64Flag_preserves _ _ _ _ (fun _ _ => rfl)
    · exact setU32Flag_preserves _ _ _ _ (fun _ _ => rfl)
    · exact setDblFlag_preserves _ _ _ _ (fun _ _ => rfl)
    · exact preservesF_of_self (setBoolFlag_self_of_empty _ _ _ he) _
    · exact setU64Flag_preserves _ _ _ _ (fun _ _ => rfl)
    · exact setBoolFlag_preserves _ _ _ _ (fun _ _ => rfl)
    · exact setU32Flag_preserves _ _ _ _ (fun _ _ => rfl)
    · exact setBoolFlag_preserves _ _ _ _ (fun _ _ => rfl)
    · exact setU64Flag_preserves _ _ _ _ (fun _ _ => rfl)
    · exact setU32Flag_preserves _ _ _ _ (fun _ _ => rfl)
    · exact setBoolFlag_preserves _ _ _ _ (fun _ _ => rfl)
    · exact setU32Flag_preserves _ _ _ _ (fun _ _ => rfl)
    · exact setU32Flag_preserves _ _ _ _ (fun _ _ => rfl)
    · exact setDblFlag_preserves _ _ _ _ (fun _ _ => rfl)
    · exact setU32Flag_preserves _ _ _ _ (fun _ _ => rfl)
  · intro he
    refine setGflags_preserves props (fun f => f.gc_check_every_some_writes) ?_ flags flags' h
    intro s hs
    simp only [gflagSteps, List.mem_cons, List.not_mem_nil,
      or_false] at hs
    rcases hs with rfl | rfl | rfl | rfl | rfl | rfl | rfl | rfl | rfl | rfl | rfl | rfl | rfl | rfl | rfl | rfl | rfl | rfl | rfl | rfl | rfl
    · exact setStrFlag_preserves _ _ _ _ (fun _ _ => rfl)
    · exact setStrFlag_preserves _ _ _ _ (fun _ _ => rfl)
    · exact setStrFlag_preserves _ _ _ _ (fun _ _ => rfl)
    · exact setU32Flag_preserves _ _ _ _ (fun _ _ => rfl)
    · exact setU32Flag_preserves _ _ _ _ (fun _ _ => rfl)
    · exact setU32Flag_preserves _ _ _ _ (fun _ _ => rfl)
    · exact setU64Flag_preserves _ _ _ _ (fun _ _ => rfl)
    · exact setU32Flag_preserves _ _ _ _ (fun _ _ => rfl)
    · exact setDblFlag_preserves _ _ _ _ (fun _ _ => rfl)
    · exact setBoolFlag_preserves _ _ _ _ (fun _ _ => rfl)
    · exact preservesF_of_self (setU64Flag_self _ _ _ he) _
    · exact setBoolFlag_preserves _ _ _ _ (fun _ _ => rfl)
    · exact setU32Flag_preserves _ _ _ _ (fun _ _ => rfl)
    · exact setBoolFlag_preserves _ _ _ _ (fun _ _ => rfl)
    · exact setU64Flag_preserves _ _ _ _ (fun _ _ => rfl)
    · exact setU32Flag_preserves _ _ _ _ (fun _ _ => rfl)
    · exact setBoolFlag_preserves _ _ _ _ (fun _ _ => rfl)
    · exact setU32Flag_preserves _ _ _ _ (fun _ _ => rfl)
    · exact setU32Flag_preserves _ _ _ _ (fun _ _ => rfl)
    · exact setDblFlag_preserves _ _ _ _ (fun _ _ => rfl)
    · exact setU32Flag_preserves _ _ _ _ (fun _ _ => rfl)
  · intro he
    refine setGflags_preserves props (fun f => f.gc_enable_data_files_gc) ?_ flags flags' h
    intro s hs
    simp only [gflagSteps, List.mem_cons, List.not_mem_nil,
      or_false] at hs
    rcases hs with rfl | rfl | rfl | rfl | rfl | rfl | rfl | rfl | rfl | rfl | rfl | rfl | rfl | rfl | rfl | rfl | rfl | rfl | rfl | rfl | rfl
    · exact setStrFlag_preserves _ _ _ _ (fun _ _ => rfl)
    · exact setStrFlag_preserves _ _ _ _ (fun _ _ => rfl)
    · exact setStrFlag_preserves _ _ _ _ (fun _ _ => rfl)
    · exact setU32Flag_preserves _ _ _ _ (fun _ _ => rfl)
    · exact setU32Flag_preserves _ _ _ _ (fun _ _ => rfl)
    · exact setU32Flag_preserves _ _ _ _ (fun _ _ => rfl)
    · exact setU64Flag_preserves _ _ _ _ (fun _ _ => rfl)
    · exact setU32Flag_preserves _ _ _ _ (fun _ _ => rfl)
    · exact setDblFlag_preserves _ _ _ _ (fun _ _ => rfl)
    · exact setBoolFlag_preserves _ _ _ _ (fun _ _ => rfl)
    · exact setU64Flag_preserves _ _ _ _ (fun _ _ => rfl)
    · exact preservesF_of_self (setBoolFlag_self_of_empty _ _ _ he) _
    · exact setU32Flag_preserves _ _ _ _ (fun _ _ => rfl)
    · exact setBoolFlag_preserves _ _ _ _ (fun _ _ => rfl)
    · exact setU64Flag_preserves _ _ _ _ (fun _ _ => rfl)
    · exact setU32Flag_preserves _ _ _ _ (fun _ _ => rfl)
    · exact setBoolFlag_preserves _ _ _ _ (fun _ _ => rfl)
    · exact setU32Flag_preserves _ _ _ _ (fun _ _ => rfl)
    · exact setU32Flag_preserves _ _ _ _ (fun _ _ => rfl)
    · exact setDblFlag_preserves _ _ _ _ (fun _ _ => rfl)
    · exact setU32Flag_preserves _ _ _ _ (fun _ _ => rfl)
  · intro he
    refine setGflags_preserves props (fun f => f.gc_trigger_min_blob_num) ?_ flags flags' h
    intro s hs
    simp only [gflagSteps, List.mem_cons, List.not_mem_nil,
      or_false] at hs
    rcases hs with rfl | rfl | rfl | rfl | rfl | rfl | rfl | rfl | rfl | rfl | rfl | rfl | rfl | rfl | rfl | rfl | rfl | rfl | rfl | rfl | rfl
    · exact setStrFlag_preserves _ _ _ _ (fun _ _ => rfl)
    · exact setStrFlag_preserves _ _ _ _ (fun _ _ => rfl)
    · exact setStrFlag_preserves _ _ _ _ (fun _ _ => rfl)
    · exact setU32Flag_preserves _ _ _ _ (fun _ _ => rfl)
    · exact setU32Flag_preserves _ _ _ _ (fun _ _ => rfl)
    · exact setU32Flag_preserves _ _ _ _ (fun _ _ => rfl)
    · exact setU64Flag_preserves _ _ _ _ (fun _ _ => rfl)
    · exact setU32Flag_preserves _ _ _ _ (fun _ _ => rfl)
    · exact setDblFlag_preserves _ _ _ _ (fun _ _ => rfl)
    · exact setBoolFlag_preserves _ _ _ _ (fun _ _ => rfl)
    · exact setU64Flag_preserves _ _ _ _ (fun _ _ => rfl)
    · exact setBoolFlag_preserves _ _ _ _ (fun _ _ => rfl)
    · exact preservesF_of_self (setU32Flag_self _ _ _ he) _
    · exact setBoolFlag_preserves _ _ _ _ (fun _ _ => rfl)
    · exact setU64Flag_preserves _ _ _ _ (fun _ _ => rfl)
    · exact setU32Flag_preserves _ _ _ _ (fun _ _ => rfl)
    · exact setBoolFlag_preserves _ _ _ _ (fun _ _ => rfl)
    · exact setU32Flag_preserves _ _ _ _ (fun _ _ => rfl)
    · exact setU32Flag_preserves _ _ _ _ (fun _ _ => rfl)
    · exact setDblFlag_preserves _ _ _ _ (fun _ _ => rfl)
    · exact setU32Flag_preserves _ _ _ _ (fun _ _ => rfl)
  · intro he
    refine setGflags_preserves props (fun f => f.gc_enable_cache_evict) ?_ flags flags' h
    intro s hs
    simp only [gflagSteps, List.mem_cons, List.not_mem_nil,
      or_false] at hs
    rcases hs with rfl | rfl | rfl | rfl | rfl | rfl | rfl | rfl | rfl | rfl | rfl | rfl | rfl | rfl | rfl | rfl | rfl | rfl | rfl | rfl | rfl
    · exact setStrFlag_preserves _ _ _ _ (fun _ _ => rfl)
    · exact setStrFlag_preserves _ _ _ _ (fun _ _ => rfl)
    · exact setStrFlag_preserves _ _ _ _ (fun _ _ => rfl)
    · exact setU32Flag_preserves _ _ _ _ (fun _ _ => rfl)
    · exact setU32Flag_preserves _ _ _ _ (fun _ _ => rfl)
    · exact setU32Flag_preserves _ _ _ _ (fun _ _ => rfl)
    · exact setU64Flag_preserves _ _ _ _ (fun _ _ => rfl)
    · exact setU32Flag_preserves _ _ _ _ (fun _ _ => rfl)
    · exact setDblFlag_preserves _ _ _ _ (fun _ _ => rfl)
    · exact setBoolFlag_preserves _ _ _ _ (fun _ _ => rfl)
    · exact setU64Flag_preserves _ _ _ _ (fun _ _ => rfl)
    · exact setBoolFlag_preserves _ _ _ _ (fun _ _ => rfl)
    · exact setU32Flag_preserves _ _ _ _ (fun _ _ => rfl)
    · exact preservesF_of_self (setBoolFlag_self_of_empty _ _ _ he) _
    · exact setU64Flag_preserves _ _ _ _ (fun _ _ => rfl)
    · exact setU32Flag_preserves _ _ _ _ (fun _ _ => rfl)
    · exact setBoolFlag_preserves _ _ _ _ (fun _ _ => rfl)
    · exact setU32Flag_preserves _ _ _ _ (fun _ _ => rfl)
    · exact setU32Flag_preserves _ _ _ _ (fun _ _ => rfl)
    · exact setDblFlag_preserves _ _ _ _ (fun _ _ => rfl)
    · exact setU32Flag_preserves _ _ _ _ (fun _ _ => rfl)
  · intro he
    refine setGflags_preserves props (fun f => f.gc_cache_max_threshold) ?_ flags flags' h
    intro s hs
    simp only [gflagSteps, List.mem_cons, List.not_mem_nil,
      or_false] at hs
    rcases hs with rfl | rfl | rfl | rfl | rfl | rfl | rfl | rfl | rfl | rfl | rfl | rfl | rfl | rfl | rfl | rfl | rfl | rfl | rfl | rfl | rfl
    · exact setStrFlag_preserves _ _ _ _ (fun _ _ => rfl)
    · exact setStrFlag_preserves _ _ _ _ (fun _ _ => rfl)
    · exact setStrFlag_preserves _ _ _ _ (fun _ _ => rfl)
    · exact setU32Flag_preserves _ _ _ _ (fun _ _ => rfl)
    · exact setU32Flag_preserves _ _ _ _ (fun _ _ => rfl)
    · exact setU32Flag_preserves _ _ _ _ (fun _ _ => rfl)
    · exact setU64Flag_preserves _ _ _ _ (fun _ _ => rfl)
    · exact setU32Flag_preserves _ _ _ _ (fun _ _ => rfl)
    · exact setDblFlag_preserves _ _ _ _ (fun _ _ => rfl)
    · exact setBoolFlag_preserves _ _ _ _ (fun _ _ => rfl)
    · exact setU64Flag_preserves _ _ _ _ (fun _ _ => rfl)
    · exact setBoolFlag_preserves _ _ _ _ (fun _ _ => rfl)
    · exact setU32Flag_preserves _ _ _ _ (fun _ _ => rfl)
    · exact setBoolFlag_preserves _ _ _ _ (fun _ _ => rfl)
    · exact preservesF_of_self (setU64Flag_self _ _ _ he) _
    · exact setU32Flag_preserves _ _ _ _ (fun _ _ => rfl)
    · exact setBoolFlag_preserves _ _ _ _ (fun _ _ => rfl)
    · exact setU32Flag_preserves _ _ _ _ (fun _ _ => rfl)
    · exact setU32Flag_preserves _ _ _ _ (fun _ _ => rfl)
    · exact setDblFlag_preserves _ _ _ _ (fun _ _ => rfl)
    · exact setU32Flag_preserves _ _ _ _ (fun _ _ => rfl)
  · intro he
    refine setGflags_preserves props (fun f => f.gc_max_evict_slot_num_per_round) ?_ flags flags' h
    intro s hs
    simp only [gflagSteps, List.mem_cons, List.not_mem_nil,
      or_false] at hs
    rcases hs with rfl | rfl | rfl | rfl | rfl | rfl | rfl | rfl | rfl | rfl | rfl | rfl | rfl | rfl | rfl | rfl | rfl | rfl | rfl | rfl | rfl
    · exact setStrFlag_preserves _ _ _ _ (fun _ _ => rfl)
    · exact setStrFlag_preserves _ _ _ _ (fun _ _ => rfl)
    · exact setStrFlag_preserves _ _ _ _ (fun _ _ => rfl)
    · exact setU32Flag_preserves _ _ _ _ (fun _ _ => rfl)
    · exact setU32Flag_preserves _ _ _ _ (fun _ _ => rfl)
    · exact setU32Flag_preserves _ _ _ _ (fun _ _ => rfl)
    · exact setU64Flag_preserves _ _ _ _ (fun _ _ => rfl)
    · exact setU32Flag_preserves _ _ _ _ (fun _ _ => rfl)
    · exact setDblFlag_preserves _ _ _ _ (fun _ _ => rfl)
    · exact setBoolFlag_preserves _ _ _ _ (fun _ _ => rfl)
    · exact setU64Flag_preserves _ _ _ _ (fun _ _ => rfl)
    · exact setBoolFlag_preserves _ _ _ _ (fun _ _ => rfl)
    · exact setU32Flag_preserves _ _ _ _ (fun _ _ => rfl)
    · exact setBoolFlag_preserves _ _ _ _ (fun _ _ => rfl)
    · exact setU64Flag_preserves _ _ _ _ (fun _ _ => rfl)
    · exact preservesF_of_self (setU32Flag_self _ _ _ he) _
    · exact setBoolFlag_preserves _ _ _ _ (fun _ _ => rfl)
    · exact setU32Flag_preserves _ _ _ _ (fun _ _ => rfl)
    · exact setU32Flag_preserves _ _ _ _ (fun _ _ => rfl)
    · exact setDblFlag_preserves _ _ _ _ (fun _ _ => rfl)
    · exact setU32Flag_preserves _ _ _ _ (fun _ _ => rfl)
  · intro he
    refine setGflags_preserves props (fun f => f.gc_enable_index_colddown) ?_ flags flags' h
    intro s hs
    simp only [gflagSteps, List.mem_cons, List.not_mem_nil,
      or_false] at hs
    rcases hs with rfl | rfl | rfl | rfl | rfl | rfl | rfl | rfl | rfl | rfl | rfl | rfl | rfl | rfl | rfl | rfl | rfl | rfl | rfl | rfl | rfl
    · exact setStrFlag_preserves _ _ _ _ (fun _ _ => rfl)
    · exact setStrFlag_preserves _ _ _ _ (fun _ _ => rfl)
    · exact setStrFlag_preserves _ _ _ _ (fun _ _ => rfl)
    · exact setU32Flag_preserves _ _ _ _ (fun _ _ => rfl)
    · exact setU32Flag_preserves _ _ _ _ (fun _ _ => rfl)
    · exact setU32Flag_preserves _ _ _ _ (fun _ _ => rfl)
    · exact setU64Flag_preserves _ _ _ _ (fun _ _ => rfl)
    · exact setU32Flag_preserves _ _ _ _ (fun _ _ => rfl)
    · exact setDblFlag_preserves _ _ _ _ (fun _ _ => rfl)
    · exact setBoolFlag_preserves _ _ _ _ (fun _ _ => rfl)
    · exact setU64Flag_preserves _ _ _ _ (fun _ _ => rfl)
    · exact setBoolFlag_preserves _ _ _ _ (fun _ _ => rfl)
    · exact setU32Flag_preserves _ _ _ _ (fun _ _ => rfl)
    · exact setBoolFlag_preserves _ _ _ _ (fun _ _ => rfl)
    · exact setU64Flag_preserves _ _ _ _ (fun _ _ => rfl)
    · exact setU32Flag_preserves _ _ _ _ (fun _ _ => rfl)
    · exact preservesF_of_self (setBoolFlag_self_of_empty _ _ _ he) _
    · exact setU32Flag_preserves _ _ _ _ (fun _ _ => rfl)
    · exact setU32Flag_preserves _ _ _ _ (fun _ _ => rfl)
    · exact setDblFlag_preserves _ _ _ _ (fun _ _ => rfl)
    · exact setU32Flag_preserves _ _ _ _ (fun _ _ => rfl)
  · intro he
    refine setGflags_preserves props (fun f => f.gc_max_colddown_index_slot_num_per_round) ?_ flags flags' h
    intro s hs
    simp only [gflagSteps, List.mem_cons, List.not_mem_nil,
      or_false] at hs
    rcases hs with rfl | rfl | rfl | rfl | rfl | rfl | rfl | rfl | rfl | rfl | rfl | rfl | rfl | rfl | rfl | rfl | rfl | rfl | rfl | rfl | rfl
    · exact setStrFlag_preserves _ _ _ _ (fun _ _ => rfl)
    · exact setStrFlag_preserves _ _ _ _ (fun _ _ => rfl)
    · exact setStrFlag_preserves _ _ _ _ (fun _ _ => rfl)
    · exact setU32Flag_preserves _ _ _ _ (fun _ _ => rfl)
    · exact setU32Flag_preserves _ _ _ _ (fun _ _ => rfl)
    · exact setU32Flag_preserves _ _ _ _ (fun _ _ => rfl)
    · exact setU64Flag_preserves _ _ _ _ (fun _ _ => rfl)
    · exact setU32Flag_preserves _ _ _ _ (fun _ _ => rfl)
    · exact setDblFlag_preserves _ _ _ _ (fun _ _ => rfl)
    · exact setBoolFlag_preserves _ _ _ _ (fun _ _ => rfl)
    · exact setU64Flag_preserves _ _ _ _ (fun _ _ => rfl)
    · exact setBoolFlag_preserves _ _ _ _ (fun _ _ => rfl)
    · exact setU32Flag_preserves _ _ _ _ (fun _ _ => rfl)
    · exact setBoolFlag_preserves _ _ _ _ (fun _ _ => rfl)
    · exact setU64Flag_preserves _ _ _ _ (fun _ _ => rfl)
    · exact setU32Flag_preserves _ _ _ _ (fun _ _ => rfl)
    · exact setBoolFlag_preserves _ _ _ _ (fun _ _ => rfl)
    · exact preservesF_of_self (setU32Flag_self _ _ _ he) _
    · exact setU32Flag_preserves _ _ _ _ (fun _ _ => rfl)
    · exact setDblFlag_preserves _ _ _ _ (fun _ _ => rfl)
    · exact setU32Flag_preserves _ _ _ _ (fun _ _ => rfl)
  · intro he
    refine setGflags_preserves props (fun f => f.bloom_filters_num) ?_ flags flags' h
    intro s hs
    simp only [gflagSteps, List.mem_cons, List.not_mem_nil,
      or_false] at hs
    rcases hs with rfl | rfl | rfl | rfl | rfl | rfl | rfl | rfl | rfl | rfl | rfl | rfl | rfl | rfl | rfl | rfl | rfl | rfl | rfl | rfl | rfl
    · exact setStrFlag_preserves _ _ _ _ (fun _ _ => rfl)
    · exact setStrFlag_preserves _ _ _ _ (fun _ _ => rfl)
    · exact setStrFlag_preserves _ _ _ _ (fun _ _ => rfl)
    · exact setU32Flag_preserves _ _ _ _ (fun _ _ => rfl)
    · exact setU32Flag_preserves _ _ _ _ (fun _ _ => rfl)
    · exact setU32Flag_preserves _ _ _ _ (fun _ _ => rfl)
    · exact setU64Flag_preserves _ _ _ _ (fun _ _ => rfl)
    · exact setU32Flag_preserves _ _ _ _ (fun _ _ => rfl)
    · exact setDblFlag_preserves _ _ _ _ (fun _ _ => rfl)
    · exact setBoolFlag_preserves _ _ _ _ (fun _ _ => rfl)
    · exact setU64Flag_preserves _ _ _ _ (fun _ _ => rfl)
    · exact setBoolFlag_preserves _ _ _ _ (fun _ _ => rfl)
    · exact setU32Flag_preserves _ _ _ _ (fun _ _ => rfl)
    · exact setBoolFlag_preserves _ _ _ _ (fun _ _ => rfl)
    · exact setU64Flag_preserves _ _ _ _ (fun _ _ => rfl)
    · exact setU32Flag_preserves _ _ _ _ (fun _ _ => rfl)
    · exact setBoolFlag_preserves _ _ _ _ (fun _ _ => rfl)
    · exact setU32Flag_preserves _ _ _ _ (fun _ _ => rfl)
    · exact preservesF_of_self (setU32Flag_self _ _ _ he) _
    · exact setDblFlag_preserves _ _ _ _ (fun _ _ => rfl)
    · exact setU32Flag_preserves _ _ _ _ (fun _ _ => rfl)
  · intro he
    refine setGflags_preserves props (fun f => f.bloom_filters_false_positive_rate) ?_ flags flags' h
    intro s hs
    simp only [gflagSteps, List.mem_cons, List.not_mem_nil,
      or_false] at hs
    rcases hs with rfl | rfl | rfl | rfl | rfl | rfl | rfl | rfl | rfl | rfl | rfl | rfl | rfl | rfl | rfl | rfl | rfl | rfl | rfl | rfl | rfl
    · exact setStrFlag_preserves _ _ _ _ (fun _ _ => rfl)
    · exact setStrFlag_preserves _ _ _ _ (fun _ _ => rfl)
    · exact setStrFlag_preserves _ _ _ _ (fun _ _ => rfl)
    · exact setU32Flag_preserves _ _ _ _ (fun _ _ => rfl)
    · exact setU32Flag_preserves _ _ _ _ (fun _ _ => rfl)
    · exact setU32Flag_preserves _ _ _ _ (fun _ _ => rfl)
    · exact setU64Flag_preserves _ _ _ _ (fun _ _ => rfl)
    · exact setU32Flag_preserves _ _ _ _ (fun _ _ => rfl)
    · exact setDblFlag_preserves _ _ _ _ (fun _ _ => rfl)
    · exact setBoolFlag_preserves _ _ _ _ (fun _ _ => rfl)
    · exact setU64Flag_preserves _ _ _ _ (fun _ _ => rfl)
    · exact setBoolFlag_preserves _ _ _ _ (fun _ _ => rfl)
    · exact setU32Flag_preserves _ _ _ _ (fun _ _ => rfl)
    · exact setBoolFlag_preserves _ _ _ _ (fun _ _ => rfl)
    · exact setU64Flag_preserves _ _ _ _ (fun _ _ => rfl)
    · exact setU32Flag_preserves _ _ _ _ (fun _ _ => rfl)
    · exact setBoolFlag_preserves _ _ _ _ (fun _ _ => rfl)
    · exact setU32Flag_preserves _ _ _ _ (fun _ _ => rfl)
    · exact setU32Flag_preserves _ _ _ _ (fun _ _ => rfl)
    · exact preservesF_of_self (setDblFlag_self _ _ _ he) _
    · exact setU32Flag_preserves _ _ _ _ (fun _ _ => rfl)
  · intro he
    refine setGflags_preserves props (fun f => f.bloom_filters_elements_num) ?_ flags flags' h
    intro s hs
    simp only [gflagSteps, List.mem_cons, List.not_mem_nil,
      or_false] at hs
    rcases hs with rfl | rfl | rfl | rfl | rfl | rfl | rfl | rfl | rfl | rfl | rfl | rfl | rfl | rfl | rfl | rfl | rfl | rfl | rfl | rfl | rfl
    · exact setStrFlag_preserves _ _ _ _ (fun _ _ => rfl)
    · exact setStrFlag_preserves _ _ _ _ (fun _ _ => rfl)
    · exact setStrFlag_preserves _ _ _ _ (fun _ _ => rfl)
    · exact setU32Flag_preserves _ _ _ _ (fun _ _ => rfl)
    · exact setU32Flag_preserves _ _ _ _ (fun _ _ => rfl)
    · exact setU32Flag_preserves _ _ _ _ (fun _ _ => rfl)
    · exact setU64Flag_preserves _ _ _ _ (fun _ _ => rfl)
    · exact setU32Flag_preserves _ _ _ _ (fun _ _ => rfl)
    · exact setDblFlag_preserves _ _ _ _ (fun _ _ => rfl)
    · exact setBoolFlag_preserves _ _ _ _ (fun _ _ => rfl)
    · exact setU64Flag_preserves _ _ _ _ (fun _ _ => rfl)
    · exact setBoolFlag_preserves _ _ _ _ (fun _ _ => rfl)
    · exact setU32Flag_preserves _ _ _ _ (fun _ _ => rfl)
    · exact setBoolFlag_preserves _ _ _ _ (fun _ _ => rfl)
    · exact setU64Flag_preserves _ _ _ _ (fun _ _ => rfl)
    · exact setU32Flag_preserves _ _ _ _ (fun _ _ => rfl)
    · exact setBoolFlag_preserves _ _ _ _ (fun _ _ => rfl)
    · exact setU32Flag_preserves _ _ _ _ (fun _ _ => rfl)
    · exact setU32Flag_preserves _ _ _ _ (fun _ _ => rfl)
    · exact setDblFlag_preserves _ _ _ _ (fun _ _ => rfl)
    · exact preservesF_of_self (setU32Flag_self _ _ _ he) _
  · intro ht hf
    refine setGflags_preserves props (fun f => f.gc_enable) ?_ flags flags' h
    intro s hs
    simp only [gflagSteps, List.mem_cons, List.not_mem_nil,
      or_false] at hs
    rcases hs with rfl | rfl | rfl | rfl | rfl | rfl | rfl | rfl | rfl | rfl | rfl | rfl | rfl | rfl | rfl | rfl | rfl | rfl | rfl | rfl | rfl
    · exact setStrFlag_preserves _ _ _ _ (fun _ _ => rfl)
    · exact setStrFlag_preserves _ _ _ _ (fun _ _ => rfl)
    · exact setStrFlag_preserves _ _ _ _ (fun _ _ => rfl)
    · exact setU32Flag_preserves _ _ _ _ (fun _ _ => rfl)
    · exact setU32Flag_preserves _ _ _ _ (fun _ _ => rfl)
    · exact setU32Flag_preserves _ _ _ _ (fun _ _ => rfl)
    · exact setU64Flag_preserves _ _ _ _ (fun _ _ => rfl)
    · exact setU32Flag_preserves _ _ _ _ (fun _ _ => rfl)
    · exact setDblFlag_preserves _ _ _ _ (fun _ _ => rfl)
    · exact preservesF_of_self (setBoolFlag_self _ _ _ ht hf) _
    · exact setU64Flag_preserves _ _ _ _ (fun _ _ => rfl)
    · exact setBoolFlag_preserves _ _ _ _ (fun _ _ => rfl)
    · exact setU32Flag_preserves _ _ _ _ (fun _ _ => rfl)
    · exact setBoolFlag_preserves _ _ _ _ (fun _ _ => rfl)
    · exact setU64Flag_preserves _ _ _ _ (fun _ _ => rfl)
    · exact setU32Flag_preserves _ _ _ _ (fun _ _ => rfl)
    · exact setBoolFlag_preserves _ _ _ _ (fun _ _ => rfl)
    · exact setU32Flag_preserves _ _ _ _ (fun _ _ => rfl)
    · exact setU32Flag_preserves _ _ _ _ (fun _ _ => rfl)
    · exact setDblFlag_preserves _ _ _ _ (fun _ _ => rfl)
    · exact setU32Flag_preserves _ _ _ _ (fun _ _ => rfl)
  · intro ht hf
    refine setGflags_preserves props (fun f => f.gc_enable_data_files_gc) ?_ flags flags' h
    intro s hs
    simp only [gflagSteps, List.mem_cons, List.not_mem_nil,
      or_false] at hs
    rcases hs with rfl | rfl | rfl | rfl | rfl | rfl | rfl | rfl | rfl | rfl | rfl | rfl | rfl | rfl | rfl | rfl | rfl | rfl | rfl | rfl | rfl
    · exact setStrFlag_preserves _ _ _ _ (fun _ _ => rfl)
    · exact setStrFlag_preserves _ _ _ _ (fun _ _ => rfl)
    · exact setStrFlag_preserves _ _ _ _ (fun _ _ => rfl)
    · exact setU32Flag_preserves _ _ _ _ (fun _ _ => rfl)
    · exact setU32Flag_preserves _ _ _ _ (fun _ _ => rfl)
    · exact setU32Flag_preserves _ _ _ _ (fun _ _ => rfl)
    · exact setU64Flag_preserves _ _ _ _ (fun _ _ => rfl)
    · exact setU32Flag_preserves _ _ _ _ (fun _ _ => rfl)
    · exact setDblFlag_preserves _ _ _ _ (fun _ _ => rfl)
    · exact setBoolFlag_preserves _ _ _ _ (fun _ _ => rfl)
    · exact setU64Flag_preserves _ _ _ _ (fun _ _ => rfl)
    · exact preservesF_of_self (setBoolFlag_self _ _ _ ht hf) _
    · exact setU32Flag_preserves _ _ _ _ (fun _ _ => rfl)
    · exact setBoolFlag_preserves _ _ _ _ (fun _ _ => rfl)
    · exact setU64Flag_preserves _ _ _ _ (fun _ _ => rfl)
    · exact setU32Flag_preserves _ _ _ _ (fun _ _ => rfl)
    · exact setBoolFlag_preserves _ _ _ _ (fun _ _ => rfl)
    · exact setU32Flag_preserves _ _ _ _ (fun _ _ => rfl)
    · exact setU32Flag_preserves _ _ _ _ (fun _ _ => rfl)
    · exact setDblFlag_preserves _ _ _ _ (fun _ _ => rfl)
    · exact setU32Flag_preserves _ _ _ _ (fun _ _ => rfl)
  · intro ht hf
    refine setGflags_preserves props (fun f => f.gc_enable_cache_evict) ?_ flags flags' h
    intro s hs
    simp only [gflagSteps, List.mem_cons, List.not_mem_nil,
      or_false] at hs
    rcases hs with rfl | rfl | rfl | rfl | rfl | rfl | rfl | rfl | rfl | rfl | rfl | rfl | rfl | rfl | rfl | rfl | rfl | rfl | rfl | rfl | rfl
    · exact setStrFlag_preserves _ _ _ _ (fun _ _ => rfl)
    · exact setStrFlag_preserves _ _ _ _ (fun _ _ => rfl)
    · exact setStrFlag_preserves _ _ _ _ (fun _ _ => rfl)
    · exact setU32Flag_preserves _ _ _ _ (fun _ _ => rfl)
    · exact setU32Flag_preserves _ _ _ _ (fun _ _ => rfl)
    · exact setU32Flag_preserves _ _ _ _ (fun _ _ => rfl)
    · exact setU64Flag_preserves _ _ _ _ (fun _ _ => rfl)
    · exact setU32Flag_preserves _ _ _ _ (fun _ _ => rfl)
    · exact setDblFlag_preserves _ _ _ _ (fun _ _ => rfl)
    · exact setBoolFlag_preserves _ _ _ _ (fun _ _ => rfl)
    · exact setU64Flag_preserves _ _ _ _ (fun _ _ => rfl)
    · exact setBoolFlag_preserves _ _ _ _ (fun _ _ => rfl)
    · exact setU32Flag_preserves _ _ _ _ (fun _ _ => rfl)
    · exact preservesF_of_self (setBoolFlag_self _ _ _ ht hf) _
    · exact setU64Flag_preserves _ _ _ _ (fun _ _ => rfl)
    · exact setU32Flag_preserves _ _ _ _ (fun _ _ => rfl)
    · exact setBoolFlag_preserves _ _ _ _ (fun _ _ => rfl)
    · exact setU32Flag_preserves _ _ _ _ (fun _ _ => rfl)
    · exact setU32Flag_preserves _ _ _ _ (fun _ _ => rfl)
    · exact setDblFlag_preserves _ _ _ _ (fun _ _ => rfl)
    · exact setU32Flag_preserves _ _ _ _ (fun _ _ => rfl)
  · intro ht hf
    refine setGflags_preserves props (fun f => f.gc_enable_index_colddown) ?_ flags flags' h
    intro s hs
    simp only [gflagSteps, List.mem_cons, List.not_mem_nil,
      or_false] at hs
    rcases hs with rfl | rfl | rfl | rfl | rfl | rfl | rfl | rfl | rfl | rfl | rfl | rfl | rfl | rfl | rfl | rfl | rfl | rfl | rfl | rfl | rfl
    · exact setStrFlag_preserves _ _ _ _ (fun _ _ => rfl)
    · exact setStrFlag_preserves _ _ _ _ (fun _ _ => rfl)
    · exact setStrFlag_preserves _ _ _ _ (fun _ _ => rfl)
    · exact setU32Flag_preserves _ _ _ _ (fun _ _ => rfl)
    · exact setU32Flag_preserves _ _ _ _ (fun _ _ => rfl)
    · exact setU32Flag_preserves _ _ _ _ (fun _ _ => rfl)
    · exact setU64Flag_preserves _ _ _ _ (fun _ _ => rfl)
    · exact setU32Flag_preserves _ _ _ _ (fun _ _ => rfl)
    · exact setDblFlag_preserves _ _ _ _ (fun _ _ => rfl)
    · exact setBoolFlag_preserves _ _ _ _ (fun _ _ => rfl)
    · exact setU64Flag_preserves _ _ _ _ (fun _ _ => rfl)
    · exact setBoolFlag_preserves _ _ _ _ (fun _ _ => rfl)
    · exact setU32Flag_preserves _ _ _ _ (fun _ _ => rfl)
    · exact setBoolFlag_preserves _ _ _ _ (fun _ _ => rfl)
    · exact setU64Flag_preserves _ _ _ _ (fun _ _ => rfl)
    · exact setU32Flag_preserves _ _ _ _ (fun _ _ => rfl)
    · exact preservesF_of_self (setBoolFlag_self _ _ _ ht hf) _
    · exact setU32Flag_preserves _ _ _ _ (fun _ _ => rfl)
    · exact setU32Flag_preserves _ _ _ _ (fun _ _ => rfl)
    · exact setDblFlag_preserves _ _ _ _ (fun _ _ => rfl)
    · exact setU32Flag_preserves _ _ _ _ (fun _ _ => rfl)
  · refine setGflags_preserves props (fun f => f.main_key_range) ?_ flags flags' h
    intro s hs
    simp only [gflagSteps, List.mem_cons, List.not_mem_nil,
      or_false] at hs
    rcases hs with rfl | rfl | rfl | rfl | rfl | rfl | rfl | rfl | rfl | rfl | rfl | rfl | rfl | rfl | rfl | rfl | rfl | rfl | rfl | rfl | rfl
    · exact setStrFlag_preserves _ _ _ _ (fun _ _ => rfl)
    · exact setStrFlag_preserves _ _ _ _ (fun _ _ => rfl)
    · exact setStrFlag_preserves _ _ _ _ (fun _ _ => rfl)
    · exact setU32Flag_preserves _ _ _ _ (fun _ _ => rfl)
    · exact setU32Flag_preserves _ _ _ _ (fun _ _ => rfl)
    · exact setU32Flag_preserves _ _ _ _ (fun _ _ => rfl)
    · exact setU64Flag_preserves _ _ _ _ (fun _ _ => rfl)
    · exact setU32Flag_preserves _ _ _ _ (fun _ _ => rfl)
    · exact setDblFlag_preserves _ _ _ _ (fun _ _ => rfl)
    · exact setBoolFlag_preserves _ _ _ _ (fun _ _ => rfl)
    · exact setU64Flag_preserves _ _ _ _ (fun _ _ => rfl)
    · exact setBoolFlag_preserves _ _ _ _ (fun _ _ => rfl)
    · exact setU32Flag_preserves _ _ _ _ (fun _ _ => rfl)
    · exact setBoolFlag_preserves _ _ _ _ (fun _ _ => rfl)
    · exact setU64Flag_preserves _ _ _ _ (fun _ _ => rfl)
    · exact setU32Flag_preserves _ _ _ _ (fun _ _ => rfl)
    · exact setBoolFlag_preserves _ _ _ _ (fun _ _ => rfl)
    · exact setU32Flag_preserves _ _ _ _ (fun _ _ => rfl)
    · exact setU32Flag_preserves _ _ _ _ (fun _ _ => rfl)
    · exact setDblFlag_preserves _ _ _ _ (fun _ _ => rfl)
    · exact setU32Flag_preserves _ _ _ _ (fun _ _ => rfl)
  · refine setGflags_preserves props (fun f => f.main_write_key_times) ?_ flags flags' h
    intro s hs
    simp only [gflagSteps, List.mem_cons, List.not_mem_nil,
      or_false] at hs
    rcases hs with rfl | rfl | rfl | rfl | rfl | rfl | rfl | rfl | rfl | rfl | rfl | rfl | rfl | rfl | rfl | rfl | rfl | rfl | rfl | rfl | rfl
    · exact setStrFlag_preserves _ _ _ _ (fun _ _ => rfl)
    · exact setStrFlag_preserves _ _ _ _ (fun _ _ => rfl)
    · exact setStrFlag_preserves _ _ _ _ (fun _ _ => rfl)
    · exact setU32Flag_preserves _ _ _ _ (fun _ _ => rfl)
    · exact setU32Flag_preserves _ _ _ _ (fun _ _ => rfl)
    · exact setU32Flag_preserves _ _ _ _ (fun _ _ => rfl)
    · exact setU64Flag_preserves _ _ _ _ (fun _ _ => rfl)
    · exact setU32Flag_preserves _ _ _ _ (fun _ _ => rfl)
    · exact setDblFlag_preserves _ _ _ _ (fun _ _ => rfl)
    · exact setBoolFlag_preserves _ _ _ _ (fun _ _ => rfl)
    · exact setU64Flag_preserves _ _ _ _ (fun _ _ => rfl)
    · exact setBoolFlag_preserves _ _ _ _ (fun _ _ => rfl)
    · exact setU32Flag_preserves _ _ _ _ (fun _ _ => rfl)
    · exact setBoolFlag_preserves _ _ _ _ (fun _ _ => rfl)
    · exact setU64Flag_preserves _ _ _ _ (fun _ _ => rfl)
    · exact setU32Flag_preserves _ _ _ _ (fun _ _ => rfl)
    · exact setBoolFlag_preserves _ _ _ _ (fun _ _ => rfl)
    · exact setU32Flag_preserves _ _ _ _ (fun _ _ => rfl)
    · exact setU32Flag_preserves _ _ _ _ (fun _ _ => rfl)
    · exact setDblFlag_preserves _ _ _ _ (fun _ _ => rfl)
    · exact setU32Flag_preserves _ _ _ _ (fun _ _ => rfl)
  · refine setGflags_preserves props (fun f => f.main_record_size) ?_ flags flags' h
    intro s hs
    simp only [gflagSteps, List.mem_cons, List.not_mem_nil,
      or_false] at hs
    rcases hs with rfl | rfl | rfl | rfl | rfl | rfl | rfl | rfl | rfl | rfl | rfl | rfl | rfl | rfl | rfl | rfl | rfl | rfl | rfl | rfl | rfl
    · exact setStrFlag_preserves _ _ _ _ (fun _ _ => rfl)
    · exact setStrFlag_preserves _ _ _ _ (fun _ _ => rfl)
    · exact setStrFlag_preserves _ _ _ _ (fun _ _ => rfl)
    · exact setU32Flag_preserves _ _ _ _ (fun _ _ => rfl)
    · exact setU32Flag_preserves _ _ _ _ (fun _ _ => rfl)
    · exact setU32Flag_preserves _ _ _ _ (fun _ _ => rfl)
    · exact setU64Flag_preserves _ _ _ _ (fun _ _ => rfl)
    · exact setU32Flag_preserves _ _ _ _ (fun _ _ => rfl)
    · exact setDblFlag_preserves _ _ _ _ (fun _ _ => rfl)
    · exact setBoolFlag_preserves _ _ _ _ (fun _ _ => rfl)
    · exact setU64Flag_preserves _ _ _ _ (fun _ _ => rfl)
    · exact setBoolFlag_preserves _ _ _ _ (fun _ _ => rfl)
    · exact setU32Flag_preserves _ _ _ _ (fun _ _ => rfl)
    · exact setBoolFlag_preserves _ _ _ _ (fun _ _ => rfl)
    · exact setU64Flag_preserves _ _ _ _ (fun _ _ => rfl)
    · exact setU32Flag_preserves _ _ _ _ (fun _ _ => rfl)
    · exact setBoolFlag_preserves _ _ _ _ (fun _ _ => rfl)
    · exact setU32Flag_preserves _ _ _ _ (fun _ _ => rfl)
    · exact setU32Flag_preserves _ _ _ _ (fun _ _ => rfl)
    · exact setDblFlag_preserves _ _ _ _ (fun _ _ => rfl)
    · exact setU32Flag_preserves _ _ _ _ (fun _ _ => rfl)
  · refine setGflags_preserves props (fun f => f.main_key_size) ?_ flags flags' h
    intro s hs
    simp only [gflagSteps, List.mem_cons, List.not_mem_nil,
      or_false] at hs
    rcases hs with rfl | rfl | rfl | rfl | rfl | rfl | rfl | rfl | rfl | rfl | rfl | rfl | rfl | rfl | rfl | rfl | rfl | rfl | rfl | rfl | rfl
    · exact setStrFlag_preserves _ _ _ _ (fun _ _ => rfl)
    · exact setStrFlag_preserves _ _ _ _ (fun _ _ => rfl)
    · exact setStrFlag_preserves _ _ _ _ (fun _ _ => rfl)
    · exact setU32Flag_preserves _ _ _ _ (fun _ _ => rfl)
    · exact setU32Flag_preserves _ _ _ _ (fun _ _ => rfl)
    · exact setU32Flag_preserves _ _ _ _ (fun _ _ => rfl)
    · exact setU64Flag_preserves _ _ _ _ (fun _ _ => rfl)
    · exact setU32Flag_preserves _ _ _ _ (fun _ _ => rfl)
    · exact setDblFlag_preserves _ _ _ _ (fun _ _ => rfl)
    · exact setBoolFlag_preserves _ _ _ _ (fun _ _ => rfl)
    · exact setU64Flag_preserves _ _ _ _ (fun _ _ => rfl)
    · exact setBoolFlag_preserves _ _ _ _ (fun _ _ => rfl)
    · exact setU32Flag_preserves _ _ _ _ (fun _ _ => rfl)
    · exact setBoolFlag_preserves _ _ _ _ (fun _ _ => rfl)
    · exact setU64Flag_preserves _ _ _ _ (fun _ _ => rfl)
    · exact setU32Flag_preserves _ _ _ _ (fun _ _ => rfl)
    · exact setBoolFlag_preserves _ _ _ _ (fun _ _ => rfl)
    · exact setU32Flag_preserves _ _ _ _ (fun _ _ => rfl)
    · exact setU32Flag_preserves _ _ _ _ (fun _ _ => rfl)
    · exact setDblFlag_preserves _ _ _ _ (fun _ _ => rfl)
    · exact setU32Flag_preserves _ _ _ _ (fun _ _ => rfl)
  · refine setGflags_preserves props (fun f => f.main_threads_num) ?_ flags flags' h
    intro s hs
    simp only [gflagSteps, List.mem_cons, List.not_mem_nil,
      or_false] at hs
    rcases hs with rfl | rfl | rfl | rfl | rfl | rfl | rfl | rfl | rfl | rfl | rfl | rfl | rfl | rfl | rfl | rfl | rfl | rfl | rfl | rfl | rfl
    · exact setStrFlag_preserves _ _ _ _ (fun _ _ => rfl)
    · exact setStrFlag_preserves _ _ _ _ (fun _ _ => rfl)
    · exact setStrFlag_preserves _ _ _ _ (fun _ _ => rfl)
    · exact setU32Flag_preserves _ _ _ _ (fun _ _ => rfl)
    · exact setU32Flag_preserves _ _ _ _ (fun _ _ => rfl)
    · exact setU32Flag_preserves _ _ _ _ (fun _ _ => rfl)
    · exact setU64Flag_preserves _ _ _ _ (fun _ _ => rfl)
    · exact setU32Flag_preserves _ _ _ _ (fun _ _ => rfl)
    · exact setDblFlag_preserves _ _ _ _ (fun _ _ => rfl)
    · exact setBoolFlag_preserves _ _ _ _ (fun _ _ => rfl)
    · exact setU64Flag_preserves _ _ _ _ (fun _ _ => rfl)
    · exact setBoolFlag_preserves _ _ _ _ (fun _ _ => rfl)
    · exact setU32Flag_preserves _ _ _ _ (fun _ _ => rfl)
    · exact setBoolFlag_preserves _ _ _ _ (fun _ _ => rfl)
    · exact setU64Flag_preserves _ _ _ _ (fun _ _ => rfl)
    · exact setU32Flag_preserves _ _ _ _ (fun _ _ => rfl)
    · exact setBoolFlag_preserves _ _ _ _ (fun _ _ => rfl)
    · exact setU32Flag_preserves _ _ _ _ (fun _ _ => rfl)
    · exact setU32Flag_preserves _ _ _ _ (fun _ _ => rfl)
    · exact setDblFlag_preserves _ _ _ _ (fun _ _ => rfl)
    · exact setU32Flag_preserves _ _ _ _ (fun _ _ => rfl)

end Hashdb.P3

namespace Hashdb.P3

theorem setGflags_frame_witness :
    SetGflags [("hashdb.gc_enable", "maybe")] flags0 = some flags0 ∧
    flags0.hashdb_files_directory = flags0.hashdb_files_directory ∧
    flags0.gc_enable = flags0.gc_enable :=
  ⟨rfl,
   (setGflags_frame [("hashdb.gc_enable", "maybe")] flags0 flags0 rfl).1
     (by decide),
   (setGflags_frame [("hashdb.gc_enable", "maybe")] flags0 flags0
       rfl).2.2.2.2.2.2.2.2.2.2.2.2.2.2.2.2.2.2.2.2.2.1
     (by decide) (by decide)⟩

end Hashdb.P3
